import Mathlib

set_option maxHeartbeats 1000000

/-!
# Verification of the Janmapatrika astrology calculation engine

A shallow embedding of `src/services/astrology.service.ts` (the Vedic chart
and Vimshottari dasha engine) together with proofs about it.

Modelling conventions:

* JavaScript numbers are modelled as exact rationals (`ℚ`).  All constants in
  the source are decimal literals, so they embed exactly.
* A JavaScript `Date` is modelled as its time value: an integer count of
  milliseconds since the Unix epoch (`ℤ`).  ECMAScript clips a time value with
  `ToIntegerOrInfinity`, i.e. truncation toward zero, which `jsTrunc` models.
  The finite ±8.64e15 range limit (beyond which a `Date` becomes invalid) is
  not modelled; instants are idealised as unbounded integers.
* `Date#getFullYear/getMonth/getDate` are modelled in UTC (the host timezone
  offset is taken to be zero): the proleptic Gregorian calendar functions
  `civilFromDays`/`daysFromCivil` below implement the ECMAScript date
  algorithms.
* The `astronomy-engine` adapter and the JavaScript `Math` trigonometric
  functions are external collaborators; they are passed in as explicit
  function parameters (`Ephemeris`, `JsMath`), exactly as the spec treats
  the Ephemeris Adapter.
* Record lookups that in JavaScript would produce `undefined` (an unknown
  planet name, a negative array index) are modelled with `Option` / default
  values; every theorem below restricts its inputs to the domains on which
  the source itself is exercised (the nine lords, longitudes in `[0,360)`),
  so the `undefined` paths are never relied upon.
-/

namespace AstrologyService

/-! ## JavaScript number primitives -/

/-- ECMAScript `ToIntegerOrInfinity` / the integer part used by `Date#setTime`
and `Math.trunc`: truncation toward zero. -/
def jsTrunc (q : ℚ) : ℤ := if q < 0 then ⌈q⌉ else ⌊q⌋

/-- The JavaScript `%` operator on numbers (`fmod`): remainder with the sign
of the dividend, `a % b = a - b * trunc(a / b)`. -/
def jsFmod (a b : ℚ) : ℚ := a - b * (jsTrunc (a / b) : ℚ)

/-- `Math.floor` on an exact rational, as an integer. -/
def jsFloor (q : ℚ) : ℤ := ⌊q⌋

/-! ## The proleptic Gregorian calendar (model of the ECMAScript `Date`
field accessors, UTC).  `daysFromCivil`/`civilFromDays` convert between a
civil date `(year, month 1..12, day 1..31)` and a day number (days since
1970-01-01); they implement the standard era-based algorithms that realise
the ECMAScript specification's `YearFromTime`/`MonthFromTime`/`DateFromTime`
and `MakeDay`. -/

/-- Day number (days since 1970-01-01) of a civil date; `m` is 1-based.
Also defined (monotonically) on "semi-valid" dates whose day field exceeds
the month length. -/
def daysFromCivil (y m d : ℤ) : ℤ :=
  let y2 := y - (if m ≤ 2 then 1 else 0)
  let era := y2 / 400
  let yoe := y2 - era * 400
  let mp := m + (if 2 < m then -3 else 9)
  let doy := (153 * mp + 2) / 5 + d - 1
  let doe := yoe * 365 + yoe / 4 - yoe / 100 + doy
  era * 146097 + doe - 719468

/-- Civil date `(year, month 1..12, day)` of a day number. -/
def civilFromDays (z : ℤ) : ℤ × ℤ × ℤ :=
  let z2 := z + 719468
  let era := z2 / 146097
  let doe := z2 % 146097
  let yoe := (doe - doe / 1460 + doe / 36524 - doe / 146096) / 365
  let y := yoe + era * 400
  let doy := doe - (365 * yoe + yoe / 4 - yoe / 100)
  let mp := (5 * doy + 2) / 153
  let d := doy - (153 * mp + 2) / 5 + 1
  let m := mp + (if mp < 10 then 3 else -9)
  (y + (if m ≤ 2 then 1 else 0), m, d)

/-- Gregorian leap year. -/
def isLeap (y : ℤ) : Prop := y % 4 = 0 ∧ (y % 100 ≠ 0 ∨ y % 400 = 0)

instance (y : ℤ) : Decidable (isLeap y) := by unfold isLeap; infer_instance

/-- Number of days in month `m` (1-based) of year `y`. -/
def daysInMonth (y m : ℤ) : ℤ :=
  if m = 2 then 28 + (if isLeap y then 1 else 0)
  else if m = 4 ∨ m = 6 ∨ m = 9 ∨ m = 11 then 30
  else 31

/-- ECMAScript `Day(t)`: the day number containing time value `t`. -/
def jsDay (t : ℤ) : ℤ := t / 86400000

/-- `Date#getFullYear` (UTC model). -/
def getFullYear (t : ℤ) : ℤ := (civilFromDays (jsDay t)).1

/-- `Date#getMonth` (UTC model): 0-based month. -/
def getMonth (t : ℤ) : ℤ := (civilFromDays (jsDay t)).2.1 - 1

/-- `Date#getDate` (UTC model): 1-based day of month. -/
def getDate (t : ℤ) : ℤ := (civilFromDays (jsDay t)).2.2

/-- ECMAScript `MakeDay(y, m, d)` with `m` 0-based and arbitrary `d`
(used by the source as `new Date(year, month, 0)` to find the last day of
the previous month). -/
def jsMakeDay (y m dt : ℤ) : ℤ :=
  let ym := y + m / 12
  let mn := m % 12
  daysFromCivil ym (mn + 1) 1 + dt - 1

/-! ## Data model of the service -/

/-- `DashaItem` of the source (`parentPlanets` is optional there; absent is
modelled as `[]`). -/
structure DashaItem where
  planet : String
  startDate : ℤ
  endDate : ℤ
  durationYear : ℤ
  durationMonth : ℤ
  durationDay : ℤ
  level : ℤ
  parentPlanets : List String

instance : Inhabited DashaItem :=
  ⟨{ planet := "", startDate := 0, endDate := 0, durationYear := 0,
     durationMonth := 0, durationDay := 0, level := 0, parentPlanets := [] }⟩

/-- `PlanetData` of the source. -/
structure PlanetData where
  name : String
  sign : String
  signId : ℤ
  nakshatra : String
  nakshatraLord : String
  rasiLord : String
  dignity : String
  degree : String
  position : String
  isRetrograde : Bool
  longitude : ℚ
  house : ℤ
  navamsaSign : String

instance : Inhabited PlanetData :=
  ⟨{ name := "", sign := "", signId := 0, nakshatra := "", nakshatraLord := "",
     rasiLord := "", dignity := "", degree := "", position := "",
     isRetrograde := false, longitude := 0, house := 0, navamsaSign := "" }⟩

/-! ## Static tables of the service -/

def SIGNS : List String :=
  ["Mesha", "Vrishabha", "Mithuna", "Karkataka", "Simha", "Kanya",
   "Tula", "Vrischika", "Dhanu", "Makara", "Kumbha", "Meena"]

def NAKSHATRAS : List String :=
  ["Ashwini", "Bharani", "Krittika", "Rohini", "Mrigashira", "Ardra",
   "Punarvasu", "Pushya", "Ashlesha",
   "Magha", "Purva Phalguni", "Uttara Phalguni", "Hasta", "Chitra", "Swati",
   "Vishakha", "Anuradha", "Jyeshtha",
   "Mula", "Purva Ashadha", "Uttara Ashadha", "Shravana", "Dhanishta",
   "Shatabhisha", "Purva Bhadrapada", "Uttara Bhadrapada", "Revati"]

def NAKSHATRA_LORDS : List String :=
  ["Ketu", "Shukra", "Surya", "Chandra", "Kuja", "Rahu", "Guru", "Shani", "Budha"]

/-- `DASHA_YEARS` record.  Lookup of a key not among the nine lords would be
`undefined` in JavaScript; it is modelled as `0` and never used under the
theorems' hypotheses. -/
def DASHA_YEARS : String → ℤ
  | "Ketu" => 7
  | "Shukra" => 20
  | "Surya" => 6
  | "Chandra" => 10
  | "Kuja" => 7
  | "Rahu" => 18
  | "Guru" => 16
  | "Shani" => 19
  | "Budha" => 17
  | _ => 0

/-- `RASI_LORDS` record (sign → lord); missing keys are `none`. -/
def RASI_LORDS : String → Option String
  | "Mesha" => some "Kuja"
  | "Vrishabha" => some "Shukra"
  | "Mithuna" => some "Budha"
  | "Karkataka" => some "Chandra"
  | "Simha" => some "Surya"
  | "Kanya" => some "Budha"
  | "Tula" => some "Shukra"
  | "Vrischika" => some "Kuja"
  | "Dhanu" => some "Guru"
  | "Makara" => some "Shani"
  | "Kumbha" => some "Shani"
  | "Meena" => some "Guru"
  | _ => none

/-- `PLANET_NAME_MAP` record. -/
def PLANET_NAME_MAP : String → Option String
  | "Sun" => some "Surya"
  | "Moon" => some "Chandra"
  | "Mars" => some "Kuja"
  | "Mercury" => some "Budha"
  | "Jupiter" => some "Guru"
  | "Venus" => some "Shukra"
  | "Saturn" => some "Shani"
  | "Rahu" => some "Rahu"
  | "Ketu" => some "Ketu"
  | "Ascendant" => some "Lagna"
  | _ => none

/-- A row of the dignity rules record in `calculateDignity`. -/
structure DignityRule where
  ex : String
  deb : String
  own : List String

instance : Inhabited DignityRule := ⟨⟨"", "", []⟩⟩

/-- The `rules` record of `calculateDignity`.  Note the source gives `Lagna`
an entry with empty exaltation/debilitation signs and no own signs. -/
def dignityRules : String → Option DignityRule
  | "Surya" => some ⟨"Mesha", "Tula", ["Simha"]⟩
  | "Chandra" => some ⟨"Vrishabha", "Vrischika", ["Karkataka"]⟩
  | "Kuja" => some ⟨"Makara", "Karkataka", ["Mesha", "Vrischika"]⟩
  | "Budha" => some ⟨"Kanya", "Meena", ["Mithuna", "Kanya"]⟩
  | "Guru" => some ⟨"Karkataka", "Makara", ["Dhanu", "Meena"]⟩
  | "Shukra" => some ⟨"Meena", "Kanya", ["Vrishabha", "Tula"]⟩
  | "Shani" => some ⟨"Tula", "Mesha", ["Makara", "Kumbha"]⟩
  | "Rahu" => some ⟨"Vrishabha", "Vrischika", ["Kumbha"]⟩
  | "Ketu" => some ⟨"Vrischika", "Vrishabha", ["Vrischika"]⟩
  | "Lagna" => some ⟨"", "", []⟩
  | _ => none

/-! ## Pure helper functions of the service -/

/-- `normalize(deg)` of the source: `deg % 360`, then `+360` if negative. -/
def normalize (deg : ℚ) : ℚ :=
  let d := jsFmod deg 360
  if d < 0 then d + 360 else d

/-- `padStart(2, '0')` as used by `toDMS`. -/
def padStart2 (s : String) : String := if s.length < 2 then "0" ++ s else s

/-- `toDMS` of the source (the source's string contains the mojibake
sequence for the degree sign, reproduced as-is). -/
def toDMS (deg : ℚ) : String :=
  let d := ⌊deg⌋
  let m := ⌊(deg - (d : ℚ)) * 60⌋
  toString d ++ "\xc2\xb0 " ++ padStart2 (toString m) ++ "\x27"

/-- `calculateNavamsaIndex` of the source. -/
def calculateNavamsaIndex (lon : ℚ) : ℤ :=
  let minutes := lon * 60
  let pada := ⌊minutes / 200⌋
  pada.tmod 12

/-- `calculateDignity` of the source. -/
def calculateDignity (planet sign : String) : String :=
  match dignityRules planet with
  | none => "-"
  | some rule =>
    if sign = rule.ex then "Exalted"
    else if sign = rule.deb then "Debilitated"
    else if sign ∈ rule.own then "Own Sign"
    else "Neutral"

/-- `formatPlanet` of the source.  Array reads `SIGNS[i]`, `NAKSHATRAS[i]`,
`NAKSHATRA_LORDS[i]` use `List.getD`; with a longitude in `[0,360)` every
index is nonnegative, and `NAKSHATRAS[27] || 'Unknown'` (the only possibly
out-of-range read) is modelled by the default `"Unknown"`. -/
def formatPlanet (englishName : String) (lon : ℚ) (isRetrograde : Bool)
    (ascLon : ℚ) : PlanetData :=
  let name := (PLANET_NAME_MAP englishName).getD englishName
  let signIndex := ⌊lon / 30⌋
  let sign := SIGNS.getD signIndex.toNat ""
  let degInSign := jsFmod lon 30
  let degreeStr := toDMS degInSign
  let positionStr := toDMS lon
  let nakshatraIndex := ⌊lon / 13.3333333⌋
  let nakshatra := NAKSHATRAS.getD nakshatraIndex.toNat "Unknown"
  let lordIndex := nakshatraIndex.tmod 9
  let nakshatraLord := NAKSHATRA_LORDS.getD lordIndex.toNat ""
  let rasiLord := (RASI_LORDS sign).getD "-"
  let dignity := calculateDignity name sign
  let adjLon0 := lon - (ascLon - 15)
  let adjLon1 := if adjLon0 < 0 then adjLon0 + 360 else adjLon0
  let adjLon := jsFmod adjLon1 360
  let house := ⌊adjLon / 30⌋ + 1
  let navamsaSignIndex := calculateNavamsaIndex lon
  let navamsaSign := SIGNS.getD navamsaSignIndex.toNat ""
  { name := name, sign := sign, signId := signIndex + 1, degree := degreeStr,
    position := positionStr, nakshatra := nakshatra,
    nakshatraLord := nakshatraLord, rasiLord := rasiLord, dignity := dignity,
    isRetrograde := isRetrograde, longitude := lon, house := house,
    navamsaSign := navamsaSign }

/-! ## The Vimshottari dasha engine -/

/-- `365.2425 * 24 * 60 * 60 * 1000` of `addTime`. -/
def msPerYear : ℚ := 365.2425 * 24 * 60 * 60 * 1000

/-- `addTime` of the source: add `years` mean Gregorian years' worth of
milliseconds; the result is clipped to integral milliseconds by `setTime`. -/
def addTime (t : ℤ) (years : ℚ) : ℤ := jsTrunc ((t : ℚ) + years * msPerYear)

/-- `getDurationYMD` of the source: calendar-field subtraction with borrow.
`new Date(end.getFullYear(), end.getMonth(), 0).getDate()` is the day-of-month
of the day preceding the first of `end`'s month. -/
def getDurationYMD (s e : ℤ) : ℤ × ℤ × ℤ :=
  let y0 := getFullYear e - getFullYear s
  let m0 := getMonth e - getMonth s
  let d0 := getDate e - getDate s
  let prevMonthLen := (civilFromDays (jsMakeDay (getFullYear e) (getMonth e) 0)).2.2
  let m1 := if d0 < 0 then m0 - 1 else m0
  let d1 := if d0 < 0 then d0 + prevMonthLen else d0
  let y2 := if m1 < 0 then y0 - 1 else y0
  let m2 := if m1 < 0 then m1 + 12 else m1
  (y2, m2, d1)

/-- The `nakshatraSpan = 13.3333333333` constant of `calculateMahadashas`. -/
def nakshatraSpanD : ℚ := 13.3333333333

/-- Array read `NAKSHATRA_LORDS[i]` for an integer index (always in `0..8`
at every use site reached under the theorems' hypotheses). -/
def lordAt (i : ℤ) : String := NAKSHATRA_LORDS.getD i.toNat ""

/-- `NAKSHATRA_LORDS.indexOf(name)`: index of the name, `-1` if absent. -/
def jsIndexOf (l : List String) (s : String) : ℤ :=
  match l.indexOf? s with
  | some n => (n : ℤ)
  | none => -1

/-- The `for (let i = 1; i < 9; i++)` loop of `calculateMahadashas`,
with `fuel` remaining iterations. -/
def mahaLoop (lordIndex : ℤ) : Nat → Nat → ℤ → List DashaItem
  | 0, _, _ => []
  | fuel + 1, i, currentDate =>
    let idx := (lordIndex + (i : ℤ)).tmod 9
    let planet := lordAt idx
    let years := DASHA_YEARS planet
    let endDate := addTime currentDate (years : ℚ)
    { planet := planet, startDate := currentDate, endDate := endDate,
      durationYear := years, durationMonth := 0, durationDay := 0,
      level := 1, parentPlanets := [] } ::
      mahaLoop lordIndex fuel (i + 1) endDate

/-- `calculateMahadashas` of the source. -/
def calculateMahadashas (moonLon : ℚ) (birthDate : ℤ) : List DashaItem :=
  let moonNakshatraPos := moonLon / nakshatraSpanD
  let nakshatraIndex := ⌊moonNakshatraPos⌋
  let fractionTraversed := moonNakshatraPos - (nakshatraIndex : ℚ)
  let fractionRemaining := 1 - fractionTraversed
  let lordIndex := nakshatraIndex.tmod 9
  let firstLord := lordAt lordIndex
  let totalYears := DASHA_YEARS firstLord
  let balanceYears := (totalYears : ℚ) * fractionRemaining
  let firstEndDate := addTime birthDate balanceYears
  let firstDuration := getDurationYMD birthDate firstEndDate
  { planet := firstLord, startDate := birthDate, endDate := firstEndDate,
    durationYear := firstDuration.1, durationMonth := firstDuration.2.1,
    durationDay := firstDuration.2.2, level := 1, parentPlanets := [] } ::
    mahaLoop lordIndex 8 1 firstEndDate

/-- The `for (let i = 0; i < 9; i++)` loop of `calculateAntarDashas`. -/
def antarLoop (parent : String) (totalYears : ℤ) (startIndex : ℤ) :
    Nat → Nat → ℤ → List DashaItem
  | 0, _, _ => []
  | fuel + 1, i, current =>
    let idx := (startIndex + (i : ℤ)).tmod 9
    let subPlanet := lordAt idx
    let subYears := DASHA_YEARS subPlanet
    let durationYears : ℚ := ((totalYears * subYears : ℤ) : ℚ) / 120
    let e := addTime current durationYears
    let dur := getDurationYMD current e
    { planet := parent ++ " - " ++ subPlanet, startDate := current,
      endDate := e, durationYear := dur.1, durationMonth := dur.2.1,
      durationDay := dur.2.2, level := 2, parentPlanets := [parent] } ::
      antarLoop parent totalYears startIndex fuel (i + 1) e

/-- `calculateAntarDashas` of the source. -/
def calculateAntarDashas (parentPlanetName : String) (startDate : ℤ) :
    List DashaItem :=
  let totalYears := DASHA_YEARS parentPlanetName
  let startIndex := jsIndexOf NAKSHATRA_LORDS parentPlanetName
  antarLoop parentPlanetName totalYears startIndex 9 0 startDate

/-- The `for (let i = 0; i < 9; i++)` loop of `calculatePratyantarDashas`. -/
def pratyLoop (gp p : String) (antarDurationYears : ℚ) (startIndex : ℤ) :
    Nat → Nat → ℤ → List DashaItem
  | 0, _, _ => []
  | fuel + 1, i, current =>
    let idx := (startIndex + (i : ℤ)).tmod 9
    let subPlanet := lordAt idx
    let subYears := DASHA_YEARS subPlanet
    let durationYears : ℚ := antarDurationYears * (subYears : ℚ) / 120
    let e := addTime current durationYears
    let dur := getDurationYMD current e
    { planet := gp ++ " - " ++ p ++ " - " ++ subPlanet, startDate := current,
      endDate := e, durationYear := dur.1, durationMonth := dur.2.1,
      durationDay := dur.2.2, level := 3, parentPlanets := [gp, p] } ::
      pratyLoop gp p antarDurationYears startIndex fuel (i + 1) e

/-- `calculatePratyantarDashas` of the source. -/
def calculatePratyantarDashas (grandParentName parentName : String)
    (startDate : ℤ) : List DashaItem :=
  let gpYears := DASHA_YEARS grandParentName
  let pYears := DASHA_YEARS parentName
  let antarDurationYears : ℚ := ((gpYears * pYears : ℤ) : ℚ) / 120
  let startIndex := jsIndexOf NAKSHATRA_LORDS parentName
  pratyLoop grandParentName parentName antarDurationYears startIndex 9 0 startDate

/-! ## `calculatePositions` with its external collaborators -/

/-- The JavaScript `Math` functions used by the ascendant computation
(double-precision approximations in the source, abstracted as an oracle). -/
structure JsMath where
  pi : ℚ
  sin : ℚ → ℚ
  cos : ℚ → ℚ
  tan : ℚ → ℚ
  atan2 : ℚ → ℚ → ℚ

/-- The `astronomy-engine` adapter: tropical ecliptic longitude of a body at
a time value (`Ecliptic(GeoVector(body, t, true)).elon`) and Greenwich
sidereal time in hours (`SiderealTime(t)`). -/
structure Ephemeris where
  eclipticLongitude : String → ℤ → ℚ
  siderealTime : ℤ → ℚ

/-- The body iteration order of `bodyMap` (`Object.entries` preserves
insertion order). -/
def bodyNames : List String :=
  ["Sun", "Moon", "Mars", "Mercury", "Jupiter", "Venus", "Saturn"]

/-- `calculatePositions` of the source.  `time.ut` of `astronomy-engine` is
the UT day count from J2000 (2000-01-01T12:00Z = 946728000000 ms). -/
def calculatePositions (E : Ephemeris) (M : JsMath) (date : ℤ)
    (lat lon ayanamsa : ℚ) : List PlanetData :=
  let gmst := E.siderealTime date
  let lmstHours := gmst + lon / 15
  let lmstDeg := jsFmod (lmstHours * 15) 360
  let eps := 23.44 * (M.pi / 180)
  let ramc := lmstDeg * (M.pi / 180)
  let latRad := lat * (M.pi / 180)
  let num := M.cos ramc
  let den := -(M.sin ramc) * M.cos eps - M.tan latRad * M.sin eps
  let ascRad := M.atan2 num den
  let ascDeg := normalize (ascRad * (180 / M.pi))
  let siderealAsc := normalize (ascDeg - ayanamsa)
  let planetItems := bodyNames.map (fun englishName =>
    let tropical := E.eclipticLongitude englishName date
    let siderealLon := normalize (tropical - ayanamsa)
    let isRetrograde : Bool :=
      if englishName ≠ "Sun" ∧ englishName ≠ "Moon" then
        let tropicalPrev := E.eclipticLongitude englishName (date - 3600000)
        let diff0 := tropical - tropicalPrev
        let diff1 := if diff0 < -180 then diff0 + 360 else diff0
        let diff2 := if 180 < diff1 then diff1 - 360 else diff1
        decide (diff2 < 0)
      else false
    formatPlanet englishName siderealLon isRetrograde siderealAsc)
  let timeUt : ℚ := ((date : ℚ) - 946728000000) / 86400000
  let jd := timeUt + 2451545.0
  let T := (jd - 2451545.0) / 36525
  let meanNodeLon := normalize
    (125.04452 - 1934.136261 * T + 0.0020708 * T * T + (T * T * T) / 450000)
  let siderealRahu := normalize (meanNodeLon - ayanamsa)
  let siderealKetu := normalize (siderealRahu + 180)
  planetItems ++
    [formatPlanet "Rahu" siderealRahu true siderealAsc,
     formatPlanet "Ketu" siderealKetu true siderealAsc,
     formatPlanet "Ascendant" siderealAsc false siderealAsc]

/-! ## Definitions used by the verification layer -/

/-- The periods of a list are laid end-to-end starting at `cur`. -/
def chained : ℤ → List DashaItem → Prop
  | _, [] => True
  | cur, it :: rest => it.startDate = cur ∧ chained it.endDate rest

/-- Last end instant of a timeline (the start instant if it is empty). -/
def lastEndD (items : List DashaItem) (dflt : ℤ) : ℤ :=
  ((items.getLast?).map (fun x => x.endDate)).getD dflt

/-- Sum of the `DASHA_YEARS` entries of `fuel` consecutive lords of the
cycle starting at position `si + i`. -/
def cycleYears (si : ℤ) : ℕ → ℕ → ℤ
  | _, 0 => 0
  | i, fuel + 1 =>
    DASHA_YEARS (lordAt ((si + (i : ℤ)).tmod 9)) + cycleYears si (i + 1) fuel

/-- The retrograde adjustment of `calculatePositions`: add 360 when the raw
difference is below -180, then subtract 360 when above 180 (an exact -180 is
left in place). -/
def retroAdjust (d : ℚ) : ℚ :=
  let d1 := if d < -180 then d + 360 else d
  if 180 < d1 then d1 - 360 else d1

/-- The unique representative of `d` modulo 360 in the half-open interval
`(-180, 180]` — the adjustment rule as the original claim C7 words it. -/
def specWrapHalfOpen (d : ℚ) : ℚ := d - 360 * ⌈(d - 180) / 360⌉

/-- A concrete ephemeris oracle: Mars one hour before the epoch sits at
tropical longitude 180, everything else at 0. -/
def ephemerisCEx : Ephemeris :=
  ⟨fun b t => if b = "Mars" ∧ t = -3600000 then 180 else 0, fun _ => 0⟩

/-- A trivial `Math` oracle. -/
def mathZero : JsMath := ⟨0, fun _ => 0, fun _ => 0, fun _ => 0, fun _ _ => 0⟩

/-- Auxiliary day-count functions over `ℕ` used to verify the year-lookup
step of `civilFromDays` (the era-local day adjusted for leap days, the first
day of an era-local year, and the era-local leap-year indicator). -/
def gN (n : ℕ) : ℕ := n - n / 1460 + n / 36524 - n / 146096

def sN (y : ℕ) : ℕ := 365 * y + y / 4 - y / 100

def leapN (y : ℕ) : ℕ := if y % 4 = 0 ∧ (y % 100 ≠ 0 ∨ y = 400) then 1 else 0

/-- End (exclusive) of era-local year `y`'s day range. -/
def eN (y : ℕ) : ℕ := if y = 399 then 146097 else sN (y + 1)

/-- Per-year check: the year-lookup formula of `civilFromDays` is correct at
both ends of year `y`'s day range, and the range's width is the year
length. -/
def checkYear (y : ℕ) : Bool :=
  decide (gN (sN y) / 365 = y) && decide (gN (eN y - 1) / 365 = y) &&
    decide (eN y - sN y = 365 + leapN (y + 1)) && decide (sN y ≤ eN y)

/-- Balanced-splitting bounded conjunction of `f` over `[lo, lo + n)`. -/
def rangeAll (f : ℕ → Bool) : ℕ → ℕ → ℕ → Bool
  | 0, lo, n => n == 0 || (n == 1 && f lo)
  | fuel + 1, lo, n =>
    if n ≤ 1 then n == 0 || (n == 1 && f lo)
    else rangeAll f fuel lo (n / 2) && rangeAll f fuel (lo + n / 2) (n - n / 2)

/-- Day number of the first day of (shifted, March-based) year `y`, up to the
era constant: `365y + ⌊y/4⌋ - ⌊y/100⌋ + ⌊y/400⌋`. -/
def fCivil (y : ℤ) : ℤ := 365 * y + y / 4 - y / 100 + y / 400

/-! ## Basic lemmas about the JavaScript number primitives -/

theorem jsTrunc_of_nonneg {q : ℚ} (h : 0 ≤ q) : jsTrunc q = ⌊q⌋ := by
  simp [jsTrunc, not_lt.mpr h]

theorem jsTrunc_of_neg {q : ℚ} (h : q < 0) : jsTrunc q = ⌈q⌉ := by
  simp [jsTrunc, h]

theorem abs_jsTrunc_sub_lt (q : ℚ) : |(jsTrunc q : ℚ) - q| < 1 := by
  unfold jsTrunc
  split
  · have h1 := Int.le_ceil q
    have h2 := Int.ceil_lt_add_one q
    rw [abs_lt]; constructor <;> linarith
  · have h1 := Int.floor_le q
    have h2 := Int.lt_floor_add_one q
    rw [abs_lt]; constructor <;> linarith

theorem jsFmod_nonneg_bounds {a : ℚ} (ha : 0 ≤ a) :
    0 ≤ jsFmod a 360 ∧ jsFmod a 360 < 360 := by
  have hdiv : (0 : ℚ) ≤ a / 360 := by positivity
  unfold jsFmod
  rw [jsTrunc_of_nonneg hdiv]
  have h1 := Int.floor_le (a / 360)
  have h2 := Int.lt_floor_add_one (a / 360)
  constructor <;> [nlinarith; nlinarith]

theorem jsFmod_neg_bounds {a : ℚ} (ha : a < 0) :
    -360 < jsFmod a 360 ∧ jsFmod a 360 ≤ 0 := by
  have hdiv : a / 360 < 0 := by
    have : (0 : ℚ) < 360 := by norm_num
    exact div_neg_of_neg_of_pos ha this
  unfold jsFmod
  rw [jsTrunc_of_neg hdiv]
  have h1 := Int.le_ceil (a / 360)
  have h2 := Int.ceil_lt_add_one (a / 360)
  constructor <;> [nlinarith; nlinarith]

/-- `normalize` agrees with the mathematical residue `a - 360⌊a/360⌋`. -/
theorem normalize_eq_floor (a : ℚ) : normalize a = a - 360 * ⌊a / 360⌋ := by
  unfold normalize jsFmod
  rcases lt_or_le (a / 360) 0 with hneg | hpos
  · rw [jsTrunc_of_neg hneg]
    have hle := Int.le_ceil (a / 360)
    have hup : (⌈a / 360⌉ : ℚ) ≤ ⌊a / 360⌋ + 1 := by
      have := Int.ceil_le_floor_add_one (a / 360)
      exact_mod_cast this
    rcases lt_or_le (a - 360 * (⌈a / 360⌉ : ℚ)) 0 with hlt | hge
    · simp only [if_pos hlt]
      have hceil : (⌈a / 360⌉ : ℚ) = ⌊a / 360⌋ + 1 := by
        by_contra hne
        have hfl : (⌊a / 360⌋ : ℚ) ≤ a / 360 := Int.floor_le _
        have hlt2 : (⌈a / 360⌉ : ℚ) < ⌊a / 360⌋ + 1 := lt_of_le_of_ne hup hne
        have hint : ⌈a / 360⌉ ≤ ⌊a / 360⌋ := by
          have : (⌈a / 360⌉ : ℚ) < (⌊a / 360⌋ : ℚ) + 1 := hlt2
          exact_mod_cast Int.lt_add_one_iff.mp (by exact_mod_cast this)
        have : (⌈a / 360⌉ : ℚ) ≤ a / 360 :=
          le_trans (by exact_mod_cast hint) hfl
        nlinarith
      rw [hceil]; ring
    · simp only [if_neg (not_lt.mpr hge)]
      have hexact : (⌈a / 360⌉ : ℚ) = a / 360 := by
        refine le_antisymm ?_ hle
        nlinarith
      have hfloor_eq : ⌊a / 360⌋ = ⌈a / 360⌉ := by
        rw [← hexact, Int.floor_intCast, Int.ceil_intCast]
      rw [hfloor_eq]
  · rw [jsTrunc_of_nonneg hpos]
    have h1 := Int.floor_le (a / 360)
    have h2 := Int.lt_floor_add_one (a / 360)
    have hge : 0 ≤ a - 360 * (⌊a / 360⌋ : ℚ) := by nlinarith
    simp only [if_neg (not_lt.mpr hge)]

theorem normalize_nonneg (a : ℚ) : 0 ≤ normalize a := by
  rw [normalize_eq_floor]
  have h1 := Int.floor_le (a / 360)
  nlinarith

theorem normalize_lt (a : ℚ) : normalize a < 360 := by
  rw [normalize_eq_floor]
  have h2 := Int.lt_floor_add_one (a / 360)
  nlinarith

theorem normalize_of_bounds {a : ℚ} (h0 : 0 ≤ a) (h1 : a < 360) :
    normalize a = a := by
  rw [normalize_eq_floor]
  have hf : ⌊a / 360⌋ = 0 := by
    rw [Int.floor_eq_zero_iff, Set.mem_Ico]
    constructor
    · positivity
    · exact (div_lt_one (by norm_num : (0:ℚ) < 360)).mpr h1
  rw [hf]
  ring

theorem jsFmod_eval_small {x : ℚ} (h0 : 0 ≤ x) (h1 : x < 360) :
    jsFmod x 360 = x := by
  unfold jsFmod
  have hdiv : 0 ≤ x / 360 := by positivity
  rw [jsTrunc_of_nonneg hdiv]
  have hf : ⌊x / 360⌋ = 0 := by
    rw [Int.floor_eq_zero_iff, Set.mem_Ico]
    exact ⟨hdiv, (div_lt_one (by norm_num : (0:ℚ) < 360)).mpr h1⟩
  rw [hf]
  push_cast
  ring

theorem jsFmod_eval_mid {x : ℚ} (h0 : 360 ≤ x) (h1 : x < 720) :
    jsFmod x 360 = x - 360 := by
  unfold jsFmod
  have hdiv : 0 ≤ x / 360 := by positivity
  rw [jsTrunc_of_nonneg hdiv]
  have hf : ⌊x / 360⌋ = 1 := by
    rw [Int.floor_eq_iff]
    constructor
    · push_cast
      rw [le_div_iff₀ (by norm_num : (0:ℚ) < 360)]
      linarith
    · push_cast
      rw [div_lt_iff₀ (by norm_num : (0:ℚ) < 360)]
      linarith
  rw [hf]
  push_cast
  ring

/-- Claim C8: for every rational input `d` (negative and `>360` included),
`normalize d` lies in `[0, 360)` and equals `((d % 360) + 360) % 360` with
`%` the JavaScript remainder operator. -/
theorem c8_normalize_range_and_formula (d : ℚ) :
    0 ≤ normalize d ∧ normalize d < 360 ∧
      normalize d = jsFmod (jsFmod d 360 + 360) 360 := by
  refine ⟨normalize_nonneg d, normalize_lt d, ?_⟩
  unfold normalize
  rcases lt_or_le d 0 with hd | hd
  · obtain ⟨hlo, hhi⟩ := jsFmod_neg_bounds hd
    rcases lt_or_le (jsFmod d 360) 0 with hr | hr
    · have houter : jsFmod (jsFmod d 360 + 360) 360 = jsFmod d 360 + 360 :=
        jsFmod_eval_small (by linarith) (by linarith)
      rw [houter, if_pos hr]
    · have hz : jsFmod d 360 = 0 := le_antisymm hhi hr
      have houter : jsFmod (jsFmod d 360 + 360) 360 = jsFmod d 360 + 360 - 360 :=
        jsFmod_eval_mid (by linarith) (by linarith)
      rw [houter, if_neg (not_lt.mpr hr)]
      ring
  · obtain ⟨hlo, hhi⟩ := jsFmod_nonneg_bounds hd
    have houter : jsFmod (jsFmod d 360 + 360) 360 = jsFmod d 360 + 360 - 360 :=
      jsFmod_eval_mid (by linarith) (by linarith)
    rw [houter, if_neg (not_lt.mpr hlo)]
    ring

/-! ## The house computation (claim C5) -/

/-- The inline adjust-then-`%360` sequence of `formatPlanet` agrees with
`normalize` on the range that can actually arise there. -/
theorem houseAdjust_eq_normalize {a : ℚ} (h0 : -360 ≤ a) (h1 : a < 720) :
    jsFmod (if a < 0 then a + 360 else a) 360 = normalize a := by
  rcases lt_or_le a 0 with ha | ha
  · rw [if_pos ha, jsFmod_eval_small (by linarith) (by linarith)]
    rw [normalize_eq_floor]
    have hf : ⌊a / 360⌋ = -1 := by
      rw [Int.floor_eq_iff]
      constructor
      · push_cast
        rw [le_div_iff₀ (by norm_num : (0:ℚ) < 360)]
        linarith
      · push_cast
        rw [div_lt_iff₀ (by norm_num : (0:ℚ) < 360)]
        linarith
    rw [hf]
    push_cast
    ring
  · rw [if_neg (not_lt.mpr ha)]
    rcases lt_or_le a 360 with hm | hm
    · rw [jsFmod_eval_small ha hm, normalize_of_bounds ha hm]
    · rw [jsFmod_eval_mid hm h1, normalize_eq_floor]
      have hf : ⌊a / 360⌋ = 1 := by
        rw [Int.floor_eq_iff]
        constructor
        · push_cast
          rw [le_div_iff₀ (by norm_num : (0:ℚ) < 360)]
          linarith
        · push_cast
          rw [div_lt_iff₀ (by norm_num : (0:ℚ) < 360)]
          linarith
      rw [hf]
      push_cast
      ring

/-- The `house` field of `formatPlanet`, extracted. -/
theorem formatPlanet_house (nm : String) (L : ℚ) (r : Bool) (asc : ℚ) :
    (formatPlanet nm L r asc).house =
      ⌊(jsFmod (if L - (asc - 15) < 0 then L - (asc - 15) + 360
                else L - (asc - 15)) 360) / 30⌋ + 1 := rfl

/-- `normalize` is invariant under shifting by integer multiples of 360. -/
theorem normalize_sub_int_mul (b : ℚ) (j : ℤ) :
    normalize (b - 360 * j) = normalize b := by
  rw [normalize_eq_floor, normalize_eq_floor]
  have hdiv : (b - 360 * j) / 360 = b / 360 - j := by
    field_simp
  rw [hdiv, Int.floor_sub_int]
  push_cast
  ring

/-- Claim C5: house assignment is cyclic and total — for longitudes and
ascendants in `[0,360)` the house is in `{1..12}` and follows the formula
`⌊normalize(L - (asc - 15))/30⌋ + 1`, and the twelve 30° bands starting at
`asc - 15` map bijectively onto houses `1..12`. -/
theorem c5_house_total_and_bands (nm : String) (r : Bool) (L asc : ℚ)
    (hL0 : 0 ≤ L) (hL1 : L < 360) (ha0 : 0 ≤ asc) (ha1 : asc < 360) :
    (1 ≤ (formatPlanet nm L r asc).house ∧ (formatPlanet nm L r asc).house ≤ 12 ∧
      (formatPlanet nm L r asc).house = ⌊normalize (L - (asc - 15)) / 30⌋ + 1) ∧
    (∀ k : ℤ, 0 ≤ k → k < 12 → ∀ x : ℚ, 0 ≤ x → x < 30 →
      (formatPlanet nm (normalize (asc - 15 + 30 * k + x)) r asc).house = k + 1) := by
  have houseFormula : ∀ L2 : ℚ, 0 ≤ L2 → L2 < 360 →
      (formatPlanet nm L2 r asc).house = ⌊normalize (L2 - (asc - 15)) / 30⌋ + 1 := by
    intro L2 h0 h1
    rw [formatPlanet_house, houseAdjust_eq_normalize (by linarith) (by linarith)]
  constructor
  · refine ⟨?_, ?_, houseFormula L hL0 hL1⟩
    · rw [houseFormula L hL0 hL1]
      have hn := normalize_nonneg (L - (asc - 15))
      have : (0 : ℤ) ≤ ⌊normalize (L - (asc - 15)) / 30⌋ :=
        Int.floor_nonneg.mpr (by positivity)
      omega
    · rw [houseFormula L hL0 hL1]
      have hn := normalize_lt (L - (asc - 15))
      have : ⌊normalize (L - (asc - 15)) / 30⌋ < 12 := by
        rw [Int.floor_lt]
        push_cast
        rw [div_lt_iff₀ (by norm_num : (0:ℚ) < 30)]
        linarith
      omega
  · intro k hk0 hk1 x hx0 hx1
    set b : ℚ := asc - 15 + 30 * k + x with hb
    have hk0q : (0 : ℚ) ≤ (k : ℚ) := by exact_mod_cast hk0
    have hk1q : (k : ℚ) ≤ 11 := by exact_mod_cast (by omega : k ≤ 11)
    have hLk0 := normalize_nonneg b
    have hLk1 := normalize_lt b
    rw [houseFormula _ hLk0 hLk1]
    have hdecomp : normalize b - (asc - 15) = 30 * k + x - 360 * ⌊b / 360⌋ := by
      rw [normalize_eq_floor]
      ring
    rw [hdecomp, normalize_sub_int_mul (30 * k + x) ⌊b / 360⌋]
    have hband0 : (0 : ℚ) ≤ 30 * k + x := by linarith
    have hband1 : (30 : ℚ) * k + x < 360 := by linarith
    rw [normalize_of_bounds hband0 hband1]
    have hdiv : (30 * (k : ℚ) + x) / 30 = k + x / 30 := by
      field_simp
      ring
    rw [hdiv]
    have hfx : ⌊(k : ℚ) + x / 30⌋ = k + ⌊x / 30⌋ := by
      rw [add_comm, Int.floor_add_int ((x : ℚ) / 30) k]
      ring
    have hx30 : ⌊x / 30⌋ = 0 := by
      rw [Int.floor_eq_zero_iff, Set.mem_Ico]
      exact ⟨by positivity, (div_lt_one (by norm_num : (0:ℚ) < 30)).mpr hx1⟩
    rw [hfx, hx30]
    ring

/-- Witness for C5 at concrete inputs. -/
theorem c5_house_total_and_bands_witness :
    (0 : ℚ) ≤ 54.5 ∧
      (formatPlanet "Sun" (54.5 : ℚ) false 100).house =
        ⌊normalize ((54.5 : ℚ) - (100 - 15)) / 30⌋ + 1 ∧
      (formatPlanet "Sun" (normalize (100 - 15 + 30 * (3 : ℤ) + 7)) false 100).house
        = 3 + 1 :=
  ⟨by norm_num,
   (c5_house_total_and_bands "Sun" false 54.5 100 (by norm_num) (by norm_num)
      (by norm_num) (by norm_num)).1.2.2,
   (c5_house_total_and_bands "Sun" false 54.5 100 (by norm_num) (by norm_num)
      (by norm_num) (by norm_num)).2 3 (by norm_num) (by norm_num) 7
      (by norm_num) (by norm_num)⟩

/-! ## Dignity (claim C4) -/

/-- Counterexample to claim C4 as stated: the ascendant point does have a
dignity-rules entry (with empty fields), so `calculateDignity` returns
`"Neutral"` for it, not the placeholder `"-"`. -/
theorem c4_counterexample :
    calculateDignity "Lagna" "Mesha" = "Neutral" ∧ ("Neutral" : String) ≠ "-" := by
  constructor
  · rfl
  · decide

/-- First-match priority characterisation of `calculateDignity` for a planet
with a rules entry. -/
theorem calculateDignity_char (p : String) (rule : DignityRule)
    (h : dignityRules p = some rule) (sign : String) :
    (calculateDignity p sign = "Exalted" ↔ sign = rule.ex) ∧
    (calculateDignity p sign = "Debilitated" ↔ sign = rule.deb ∧ sign ≠ rule.ex) ∧
    (calculateDignity p sign = "Own Sign" ↔
      sign ∈ rule.own ∧ sign ≠ rule.ex ∧ sign ≠ rule.deb) ∧
    (calculateDignity p sign = "Neutral" ↔
      sign ≠ rule.ex ∧ sign ≠ rule.deb ∧ sign ∉ rule.own) ∧
    calculateDignity p sign ∈ ["Exalted", "Debilitated", "Own Sign", "Neutral"] := by
  unfold calculateDignity
  rw [h]
  dsimp only
  split_ifs with h1 h2 h3 <;> simp_all

/-- Claim C4 (amended): the ascendant point (`Lagna`) has a rules entry with
empty exaltation/debilitation signs and no own signs, so its dignity is
`"Neutral"` for every actual sign name (the `"-"` placeholder is returned
only for body names absent from the rules record); each of the nine
tabulated bodies gets `"Exalted"` / `"Debilitated"` / `"Own Sign"` /
`"Neutral"` by first match in that priority order against its static
record. -/
theorem c4_dignity :
    (∀ sign ∈ SIGNS, calculateDignity "Lagna" sign = "Neutral") ∧
    (∀ p ∈ ["Surya", "Chandra", "Kuja", "Budha", "Guru", "Shukra", "Shani",
            "Rahu", "Ketu"], ∀ sign : String,
      (calculateDignity p sign = "Exalted" ↔
        sign = (dignityRules p).iget.ex) ∧
      (calculateDignity p sign = "Debilitated" ↔
        sign = (dignityRules p).iget.deb ∧ sign ≠ (dignityRules p).iget.ex) ∧
      (calculateDignity p sign = "Own Sign" ↔
        sign ∈ (dignityRules p).iget.own ∧ sign ≠ (dignityRules p).iget.ex ∧
          sign ≠ (dignityRules p).iget.deb) ∧
      (calculateDignity p sign = "Neutral" ↔
        sign ≠ (dignityRules p).iget.ex ∧ sign ≠ (dignityRules p).iget.deb ∧
          sign ∉ (dignityRules p).iget.own) ∧
      calculateDignity p sign ∈ ["Exalted", "Debilitated", "Own Sign", "Neutral"]) := by
  constructor
  · decide
  · intro p hp sign
    fin_cases hp <;> (refine calculateDignity_char _ _ ?_ sign) <;> rfl

/-- Witness for C4 at concrete inputs. -/
theorem c4_dignity_witness :
    "Mesha" ∈ SIGNS ∧ calculateDignity "Lagna" "Mesha" = "Neutral" ∧
      calculateDignity "Surya" "Mesha" ∈
        ["Exalted", "Debilitated", "Own Sign", "Neutral"] :=
  ⟨by decide, c4_dignity.1 "Mesha" (by decide),
   (c4_dignity.2 "Surya" (by decide) "Mesha").2.2.2.2⟩

/-! ## Nakshatra classification (claim C3) -/

/-- Counterexample to claim C3 as stated: at sidereal longitude
`359.99999995` (inside `[0,360)`) the code computes nakshatra index
`⌊L / 13.3333333⌋ = 27` — not `⌊L / (360/27)⌋ = 26` — which is unmapped in
the 27-entry table, so the chart point gets the fallback name `"Unknown"`. -/
theorem c3_counterexample :
    (formatPlanet "Sun" (359.99999995 : ℚ) false 0).nakshatra = "Unknown" ∧
    ⌊(359.99999995 : ℚ) / (360 / 27)⌋ = 26 ∧
    ⌊(359.99999995 : ℚ) / 13.3333333⌋ = 27 ∧
    "Unknown" ∉ NAKSHATRAS := by
  have hfl : ⌊(359.99999995 : ℚ) / 13.3333333⌋ = 27 := by
    norm_num [Int.floor_eq_iff]
  have hnak : (formatPlanet "Sun" (359.99999995 : ℚ) false 0).nakshatra =
      NAKSHATRAS.getD (⌊(359.99999995 : ℚ) / 13.3333333⌋).toNat "Unknown" := rfl
  refine ⟨?_, by norm_num [Int.floor_eq_iff], hfl, by decide⟩
  rw [hnak, hfl]
  decide

/-- Entries `0..26` of the nakshatra table are genuine names. -/
theorem nakshatras_getD_ne_unknown (n : ℕ) (h : n ≤ 26) :
    NAKSHATRAS.getD n "Unknown" ≠ "Unknown" := by
  interval_cases n <;> decide

/-- Claim C3 (amended): for `L ∈ [0,360)` the computed nakshatra index is
`⌊L / 13.3333333⌋` (the source's truncated span constant, not `360/27`),
which lies in `0..27`; for `L < 27 * 13.3333333` (= 359.9999991) it is in
`0..26` and selects a name from the table, while for
`L ∈ [359.9999991, 360)` it is the unmapped index 27 and the chart point
falls back to `"Unknown"`. -/
theorem c3_nakshatra_index (nm : String) (r : Bool) (asc : ℚ) (L : ℚ)
    (h0 : 0 ≤ L) (h1 : L < 360) :
    0 ≤ ⌊L / 13.3333333⌋ ∧ ⌊L / 13.3333333⌋ ≤ 27 ∧
    (formatPlanet nm L r asc).nakshatra =
      NAKSHATRAS.getD (⌊L / 13.3333333⌋).toNat "Unknown" ∧
    (L < 27 * 13.3333333 → ⌊L / 13.3333333⌋ ≤ 26 ∧
      (formatPlanet nm L r asc).nakshatra ≠ "Unknown") ∧
    (27 * 13.3333333 ≤ L → ⌊L / 13.3333333⌋ = 27 ∧
      (formatPlanet nm L r asc).nakshatra = "Unknown") := by
  have hc : (0 : ℚ) < 13.3333333 := by norm_num
  have hk0 : 0 ≤ ⌊L / 13.3333333⌋ := Int.floor_nonneg.mpr (by positivity)
  have hk27 : ⌊L / 13.3333333⌋ ≤ 27 := by
    have : ⌊L / 13.3333333⌋ < 28 := by
      rw [Int.floor_lt]
      push_cast
      rw [div_lt_iff₀ hc]
      linarith
    omega
  have hnak : (formatPlanet nm L r asc).nakshatra =
      NAKSHATRAS.getD (⌊L / 13.3333333⌋).toNat "Unknown" := rfl
  refine ⟨hk0, hk27, hnak, ?_, ?_⟩
  · intro hlt
    have hk26 : ⌊L / 13.3333333⌋ ≤ 26 := by
      have : ⌊L / 13.3333333⌋ < 27 := by
        rw [Int.floor_lt]
        push_cast
        rw [div_lt_iff₀ hc]
        linarith
      omega
    refine ⟨hk26, ?_⟩
    rw [hnak]
    exact nakshatras_getD_ne_unknown _ (by omega)
  · intro hge
    have hk27ge : 27 ≤ ⌊L / 13.3333333⌋ := by
      rw [Int.le_floor]
      push_cast
      rw [le_div_iff₀ hc]
      linarith
    have hkeq : ⌊L / 13.3333333⌋ = 27 := le_antisymm hk27 hk27ge
    refine ⟨hkeq, ?_⟩
    rw [hnak, hkeq]
    decide

/-- Witness for C3 at a concrete input. -/
theorem c3_nakshatra_index_witness :
    (0 : ℚ) ≤ 100 ∧ (100 : ℚ) < 360 ∧
      (formatPlanet "Moon" (100 : ℚ) false 0).nakshatra ≠ "Unknown" :=
  ⟨by norm_num, by norm_num,
   ((c3_nakshatra_index "Moon" false 0 100 (by norm_num) (by norm_num)).2.2.2.1
      (by norm_num)).2⟩

/-! ## Timeline structure lemmas (claims C1, C2, C6) -/

theorem chained_getD_link :
    ∀ (items : List DashaItem) (cur : ℤ), chained cur items →
      ∀ i : ℕ, i + 1 < items.length →
        (items.getD (i + 1) default).startDate = (items.getD i default).endDate := by
  intro items
  induction items with
  | nil => intro cur _ i hi; simp at hi
  | cons a rest ih =>
    intro cur hch i hi
    obtain ⟨ha, hrest⟩ := hch
    cases i with
    | zero =>
      cases rest with
      | nil => simp at hi
      | cons b bs =>
        obtain ⟨hb, _⟩ := hrest
        simpa using hb
    | succ j =>
      have hj : j + 1 < rest.length := by
        simpa using hi
      simpa using ih a.endDate hrest j hj

theorem lastEndD_singleton (a : DashaItem) (d : ℤ) :
    lastEndD [a] d = a.endDate := rfl

theorem lastEndD_cons_of_ne_nil (a : DashaItem) (rest : List DashaItem)
    (h : rest ≠ []) (d1 d2 : ℤ) :
    lastEndD (a :: rest) d1 = lastEndD rest d2 := by
  cases rest with
  | nil => exact absurd rfl h
  | cons b bs =>
    obtain ⟨x, hx⟩ := Option.isSome_iff_exists.mp (List.getLast?_isSome.mpr h)
    simp [lastEndD, List.getLast?_cons_cons, hx]

theorem chained_sum_spans :
    ∀ (items : List DashaItem) (cur : ℤ), chained cur items →
      (items.map (fun x => x.endDate - x.startDate)).sum = lastEndD items cur - cur := by
  intro items
  induction items with
  | nil => intro cur _; simp [lastEndD]
  | cons a rest ih =>
    intro cur hch
    obtain ⟨ha, hrest⟩ := hch
    have hsum := ih a.endDate hrest
    cases rest with
    | nil =>
      simp [lastEndD, ha]
    | cons b bs =>
      rw [lastEndD_cons_of_ne_nil a (b :: bs) (by simp) cur a.endDate]
      simp only [List.map_cons, List.sum_cons] at hsum ⊢
      omega

/-! Lengths and chaining of the three generator loops. -/

theorem mahaLoop_length (li : ℤ) :
    ∀ (fuel i : ℕ) (cur : ℤ), (mahaLoop li fuel i cur).length = fuel := by
  intro fuel
  induction fuel with
  | zero => intro i cur; rfl
  | succ f ih => intro i cur; simp [mahaLoop, ih]

theorem antarLoop_length (p : String) (ty si : ℤ) :
    ∀ (fuel i : ℕ) (cur : ℤ), (antarLoop p ty si fuel i cur).length = fuel := by
  intro fuel
  induction fuel with
  | zero => intro i cur; rfl
  | succ f ih => intro i cur; simp [antarLoop, ih]

theorem pratyLoop_length (gp p : String) (ad : ℚ) (si : ℤ) :
    ∀ (fuel i : ℕ) (cur : ℤ), (pratyLoop gp p ad si fuel i cur).length = fuel := by
  intro fuel
  induction fuel with
  | zero => intro i cur; rfl
  | succ f ih => intro i cur; simp [pratyLoop, ih]

theorem mahaLoop_chained (li : ℤ) :
    ∀ (fuel i : ℕ) (cur : ℤ), chained cur (mahaLoop li fuel i cur) := by
  intro fuel
  induction fuel with
  | zero => intro i cur; trivial
  | succ f ih => intro i cur; exact ⟨rfl, ih (i + 1) _⟩

theorem antarLoop_chained (p : String) (ty si : ℤ) :
    ∀ (fuel i : ℕ) (cur : ℤ), chained cur (antarLoop p ty si fuel i cur) := by
  intro fuel
  induction fuel with
  | zero => intro i cur; trivial
  | succ f ih => intro i cur; exact ⟨rfl, ih (i + 1) _⟩

theorem pratyLoop_chained (gp p : String) (ad : ℚ) (si : ℤ) :
    ∀ (fuel i : ℕ) (cur : ℤ), chained cur (pratyLoop gp p ad si fuel i cur) := by
  intro fuel
  induction fuel with
  | zero => intro i cur; trivial
  | succ f ih => intro i cur; exact ⟨rfl, ih (i + 1) _⟩

theorem calculateMahadashas_chained (L : ℚ) (t : ℤ) :
    chained t (calculateMahadashas L t) :=
  ⟨rfl, mahaLoop_chained _ 8 1 _⟩

theorem calculateAntarDashas_chained (parent : String) (t : ℤ) :
    chained t (calculateAntarDashas parent t) :=
  antarLoop_chained _ _ _ 9 0 t

theorem calculatePratyantarDashas_chained (gp p : String) (t : ℤ) :
    chained t (calculatePratyantarDashas gp p t) :=
  pratyLoop_chained _ _ _ _ 9 0 t

/-! Total-span accounting for the level-2/3 loops. -/

/-- Any rotation of the full 9-lord cycle allocates exactly 120 years. -/
theorem cycleYears_full (si : ℤ) (h0 : 0 ≤ si) (h1 : si < 9) :
    cycleYears si 0 9 = 120 := by
  interval_cases si <;> decide

theorem jsIndexOf_lords_bounds (s : String) (h : s ∈ NAKSHATRA_LORDS) :
    0 ≤ jsIndexOf NAKSHATRA_LORDS s ∧ jsIndexOf NAKSHATRA_LORDS s < 9 := by
  fin_cases h <;> decide

theorem dashaYears_ge_six (s : String) (h : s ∈ NAKSHATRA_LORDS) :
    6 ≤ DASHA_YEARS s := by
  fin_cases h <;> decide

theorem msPerYear_eq : msPerYear = 31556952000 := by norm_num [msPerYear]

theorem addTime_close (t : ℤ) (y : ℚ) :
    |((addTime t y : ℤ) : ℚ) - ((t : ℚ) + y * msPerYear)| < 1 :=
  abs_jsTrunc_sub_lt _

theorem antarLoop_lastEnd (p : String) (ty si : ℤ) :
    ∀ (fuel i : ℕ) (cur : ℤ),
      |((lastEndD (antarLoop p ty si fuel i cur) cur : ℤ) : ℚ) -
        ((cur : ℚ) + ((ty * cycleYears si i fuel : ℤ) : ℚ) / 120 * msPerYear)| ≤
        (fuel : ℚ) := by
  intro fuel
  induction fuel with
  | zero =>
    intro i cur
    simp [antarLoop, lastEndD, cycleYears]
  | succ f ih =>
    intro i cur
    set d : ℚ := ((ty * DASHA_YEARS (lordAt ((si + (i : ℤ)).tmod 9)) : ℤ) : ℚ) / 120
      with hd
    set e : ℤ := addTime cur d with he
    have hstep : |((e : ℤ) : ℚ) - ((cur : ℚ) + d * msPerYear)| < 1 := addTime_close cur d
    have hsplit : ((ty * cycleYears si i (f + 1) : ℤ) : ℚ) / 120 =
        d + ((ty * cycleYears si (i + 1) f : ℤ) : ℚ) / 120 := by
      rw [hd]
      show ((ty * cycleYears si i (f + 1) : ℤ) : ℚ) / 120 = _
      rw [show cycleYears si i (f + 1) =
        DASHA_YEARS (lordAt ((si + (i : ℤ)).tmod 9)) + cycleYears si (i + 1) f from rfl]
      push_cast
      ring
    cases f with
    | zero =>
      have hone : antarLoop p ty si 1 i cur =
          [{ planet := p ++ " - " ++ lordAt ((si + (i : ℤ)).tmod 9),
             startDate := cur, endDate := e,
             durationYear := (getDurationYMD cur e).1,
             durationMonth := (getDurationYMD cur e).2.1,
             durationDay := (getDurationYMD cur e).2.2,
             level := 2, parentPlanets := [p] }] := rfl
      rw [hone, lastEndD_singleton]
      dsimp only
      rw [hsplit]
      have hz : ((ty * cycleYears si (i + 1) 0 : ℤ) : ℚ) / 120 = 0 := by
        rw [show cycleYears si (i + 1) 0 = 0 from rfl]
        push_cast
        ring
      rw [hz, add_zero]
      rw [abs_lt] at hstep
      rw [abs_le]
      exact ⟨by push_cast; linarith, by push_cast; linarith⟩
    | succ g =>
      have hne : antarLoop p ty si (g + 1) (i + 1) e ≠ [] := by
        intro hcon
        have := antarLoop_length p ty si (g + 1) (i + 1) e
        rw [hcon] at this
        simp at this
      have hcons : antarLoop p ty si (g + 1 + 1) i cur =
          { planet := p ++ " - " ++ lordAt ((si + (i : ℤ)).tmod 9),
            startDate := cur, endDate := e,
            durationYear := (getDurationYMD cur e).1,
            durationMonth := (getDurationYMD cur e).2.1,
            durationDay := (getDurationYMD cur e).2.2,
            level := 2, parentPlanets := [p] } ::
            antarLoop p ty si (g + 1) (i + 1) e := rfl
      rw [hcons, lastEndD_cons_of_ne_nil _ _ hne cur e]
      have hrec := ih (i + 1) e
      rw [hsplit]
      rw [abs_le] at hrec ⊢
      rw [abs_lt] at hstep
      push_cast at hrec ⊢
      constructor <;> [linarith; linarith]

theorem pratyLoop_lastEnd (gp p : String) (ad : ℚ) (si : ℤ) :
    ∀ (fuel i : ℕ) (cur : ℤ),
      |((lastEndD (pratyLoop gp p ad si fuel i cur) cur : ℤ) : ℚ) -
        ((cur : ℚ) + ad * ((cycleYears si i fuel : ℤ) : ℚ) / 120 * msPerYear)| ≤
        (fuel : ℚ) := by
  intro fuel
  induction fuel with
  | zero =>
    intro i cur
    simp [pratyLoop, lastEndD, cycleYears]
  | succ f ih =>
    intro i cur
    set d : ℚ := ad * ((DASHA_YEARS (lordAt ((si + (i : ℤ)).tmod 9)) : ℤ) : ℚ) / 120
      with hd
    set e : ℤ := addTime cur d with he
    have hstep : |((e : ℤ) : ℚ) - ((cur : ℚ) + d * msPerYear)| < 1 := addTime_close cur d
    have hsplit : ad * ((cycleYears si i (f + 1) : ℤ) : ℚ) / 120 =
        d + ad * ((cycleYears si (i + 1) f : ℤ) : ℚ) / 120 := by
      rw [hd]
      rw [show cycleYears si i (f + 1) =
        DASHA_YEARS (lordAt ((si + (i : ℤ)).tmod 9)) + cycleYears si (i + 1) f from rfl]
      push_cast
      ring
    cases f with
    | zero =>
      have hone : pratyLoop gp p ad si 1 i cur =
          [{ planet := gp ++ " - " ++ p ++ " - " ++ lordAt ((si + (i : ℤ)).tmod 9),
             startDate := cur, endDate := e,
             durationYear := (getDurationYMD cur e).1,
             durationMonth := (getDurationYMD cur e).2.1,
             durationDay := (getDurationYMD cur e).2.2,
             level := 3, parentPlanets := [gp, p] }] := rfl
      rw [hone, lastEndD_singleton]
      dsimp only
      rw [hsplit]
      have hz : ad * ((cycleYears si (i + 1) 0 : ℤ) : ℚ) / 120 = 0 := by
        rw [show cycleYears si (i + 1) 0 = 0 from rfl]
        push_cast
        ring
      rw [hz, add_zero]
      rw [abs_lt] at hstep
      rw [abs_le]
      exact ⟨by push_cast; linarith, by push_cast; linarith⟩
    | succ g =>
      have hne : pratyLoop gp p ad si (g + 1) (i + 1) e ≠ [] := by
        intro hcon
        have := pratyLoop_length gp p ad si (g + 1) (i + 1) e
        rw [hcon] at this
        simp at this
      have hcons : pratyLoop gp p ad si (g + 1 + 1) i cur =
          { planet := gp ++ " - " ++ p ++ " - " ++ lordAt ((si + (i : ℤ)).tmod 9),
            startDate := cur, endDate := e,
            durationYear := (getDurationYMD cur e).1,
            durationMonth := (getDurationYMD cur e).2.1,
            durationDay := (getDurationYMD cur e).2.2,
            level := 3, parentPlanets := [gp, p] } ::
            pratyLoop gp p ad si (g + 1) (i + 1) e := rfl
      rw [hcons, lastEndD_cons_of_ne_nil _ _ hne cur e]
      have hrec := ih (i + 1) e
      rw [hsplit]
      rw [abs_le] at hrec ⊢
      rw [abs_lt] at hstep
      push_cast at hrec ⊢
      constructor <;> [linarith; linarith]

/-- Claim C6: in every timeline returned by `calculateMahadashas`,
`calculateAntarDashas` or `calculatePratyantarDashas` the 9 periods are
contiguous: the first period starts at the given instant and each period
`i+1` starts exactly at period `i`'s end, so the sequence covers one
contiguous span with no gaps or overlaps. -/
theorem c6_contiguity (moonLon : ℚ) (parent gp p : String) (t : ℤ)
    (_hm0 : 0 ≤ moonLon) (_hm1 : moonLon < 360)
    (_hparent : parent ∈ NAKSHATRA_LORDS) (_hgp : gp ∈ NAKSHATRA_LORDS)
    (_hp : p ∈ NAKSHATRA_LORDS) :
    ((calculateMahadashas moonLon t).length = 9 ∧
      ((calculateMahadashas moonLon t).getD 0 default).startDate = t ∧
      ∀ i : ℕ, i + 1 < 9 →
        ((calculateMahadashas moonLon t).getD (i + 1) default).startDate =
          ((calculateMahadashas moonLon t).getD i default).endDate) ∧
    ((calculateAntarDashas parent t).length = 9 ∧
      ((calculateAntarDashas parent t).getD 0 default).startDate = t ∧
      ∀ i : ℕ, i + 1 < 9 →
        ((calculateAntarDashas parent t).getD (i + 1) default).startDate =
          ((calculateAntarDashas parent t).getD i default).endDate) ∧
    ((calculatePratyantarDashas gp p t).length = 9 ∧
      ((calculatePratyantarDashas gp p t).getD 0 default).startDate = t ∧
      ∀ i : ℕ, i + 1 < 9 →
        ((calculatePratyantarDashas gp p t).getD (i + 1) default).startDate =
          ((calculatePratyantarDashas gp p t).getD i default).endDate) := by
  have hlenM : (calculateMahadashas moonLon t).length = 9 := by
    simp [calculateMahadashas, mahaLoop_length]
  have hlenA : (calculateAntarDashas parent t).length = 9 :=
    antarLoop_length _ _ _ 9 0 t
  have hlenP : (calculatePratyantarDashas gp p t).length = 9 :=
    pratyLoop_length _ _ _ _ 9 0 t
  refine ⟨⟨hlenM, rfl, ?_⟩, ⟨hlenA, ?_, ?_⟩, ⟨hlenP, ?_, ?_⟩⟩
  · intro i hi
    exact chained_getD_link _ t (calculateMahadashas_chained moonLon t) i
      (by rw [hlenM]; exact hi)
  · have hch := calculateAntarDashas_chained parent t
    cases hAnt : calculateAntarDashas parent t with
    | nil => rw [hAnt] at hlenA; simp at hlenA
    | cons a rest =>
      rw [hAnt] at hch
      simpa using hch.1
  · intro i hi
    exact chained_getD_link _ t (calculateAntarDashas_chained parent t) i
      (by rw [hlenA]; exact hi)
  · have hch := calculatePratyantarDashas_chained gp p t
    cases hPr : calculatePratyantarDashas gp p t with
    | nil => rw [hPr] at hlenP; simp at hlenP
    | cons a rest =>
      rw [hPr] at hch
      simpa using hch.1
  · intro i hi
    exact chained_getD_link _ t (calculatePratyantarDashas_chained gp p t) i
      (by rw [hlenP]; exact hi)

/-- Witness for C6 at concrete inputs. -/
theorem c6_contiguity_witness :
    (0 : ℚ) ≤ 54.5 ∧ "Shukra" ∈ NAKSHATRA_LORDS ∧
      (calculateMahadashas (54.5 : ℚ) 0).length = 9 ∧
      ((calculateAntarDashas "Shukra" 0).getD 1 default).startDate =
        ((calculateAntarDashas "Shukra" 0).getD 0 default).endDate :=
  ⟨by norm_num, by decide,
   (c6_contiguity 54.5 "Shukra" "Shukra" "Surya" 0 (by norm_num) (by norm_num)
      (by decide) (by decide) (by decide)).1.1,
   (c6_contiguity 54.5 "Shukra" "Shukra" "Surya" 0 (by norm_num) (by norm_num)
      (by decide) (by decide) (by decide)).2.1.2.2 0 (by norm_num)⟩

/-- Claim C1: for every lord among the nine and every start instant, the sum
of the 9 period durations returned by `calculateAntarDashas` equals
`DASHA_YEARS[parent]` years within 1e-9 relative tolerance, and the sum of
the 9 durations returned by `calculatePratyantarDashas` equals
`DASHA_YEARS[gp] * DASHA_YEARS[p] / 120` years within the same tolerance
(durations measured as `endDate - startDate` in milliseconds;
`msPerYear` milliseconds = one year). -/
theorem c1_level_sums (parent gp p : String) (t : ℤ)
    (hparent : parent ∈ NAKSHATRA_LORDS) (hgp : gp ∈ NAKSHATRA_LORDS)
    (hp : p ∈ NAKSHATRA_LORDS) :
    ((calculateAntarDashas parent t).length = 9 ∧
      |((((calculateAntarDashas parent t).map
            (fun x => x.endDate - x.startDate)).sum : ℤ) : ℚ) -
          (DASHA_YEARS parent : ℚ) * msPerYear| ≤
        1 / 1000000000 * ((DASHA_YEARS parent : ℚ) * msPerYear)) ∧
    ((calculatePratyantarDashas gp p t).length = 9 ∧
      |((((calculatePratyantarDashas gp p t).map
            (fun x => x.endDate - x.startDate)).sum : ℤ) : ℚ) -
          (DASHA_YEARS gp : ℚ) * (DASHA_YEARS p : ℚ) / 120 * msPerYear| ≤
        1 / 1000000000 * ((DASHA_YEARS gp : ℚ) * (DASHA_YEARS p : ℚ) / 120 *
          msPerYear)) := by
  constructor
  · obtain ⟨hsi0, hsi9⟩ := jsIndexOf_lords_bounds parent hparent
    have hty : (6 : ℤ) ≤ DASHA_YEARS parent := dashaYears_ge_six parent hparent
    have hcalc : calculateAntarDashas parent t =
        antarLoop parent (DASHA_YEARS parent) (jsIndexOf NAKSHATRA_LORDS parent)
          9 0 t := rfl
    refine ⟨antarLoop_length _ _ _ 9 0 t, ?_⟩
    have hsum := chained_sum_spans _ t (calculateAntarDashas_chained parent t)
    have hEnd := antarLoop_lastEnd parent (DASHA_YEARS parent)
      (jsIndexOf NAKSHATRA_LORDS parent) 9 0 t
    rw [cycleYears_full _ hsi0 hsi9] at hEnd
    have h120 : ((DASHA_YEARS parent * 120 : ℤ) : ℚ) / 120 =
        (DASHA_YEARS parent : ℚ) := by push_cast; ring
    rw [h120] at hEnd
    rw [hcalc] at hsum
    rw [hcalc]
    have hcast : ((((antarLoop parent (DASHA_YEARS parent)
        (jsIndexOf NAKSHATRA_LORDS parent) 9 0 t).map
          (fun x => x.endDate - x.startDate)).sum : ℤ) : ℚ) =
        ((lastEndD (antarLoop parent (DASHA_YEARS parent)
          (jsIndexOf NAKSHATRA_LORDS parent) 9 0 t) t : ℤ) : ℚ) - (t : ℚ) := by
      rw [hsum]; push_cast; ring
    rw [hcast]
    rw [abs_le] at hEnd ⊢
    have htyQ : (6 : ℚ) ≤ (DASHA_YEARS parent : ℚ) := by exact_mod_cast hty
    rw [msPerYear_eq] at hEnd ⊢
    push_cast at hEnd ⊢
    constructor <;> nlinarith
  · obtain ⟨hsi0, hsi9⟩ := jsIndexOf_lords_bounds p hp
    have hgp6 : (6 : ℤ) ≤ DASHA_YEARS gp := dashaYears_ge_six gp hgp
    have hp6 : (6 : ℤ) ≤ DASHA_YEARS p := dashaYears_ge_six p hp
    have hcalc : calculatePratyantarDashas gp p t =
        pratyLoop gp p (((DASHA_YEARS gp * DASHA_YEARS p : ℤ) : ℚ) / 120)
          (jsIndexOf NAKSHATRA_LORDS p) 9 0 t := rfl
    refine ⟨pratyLoop_length _ _ _ _ 9 0 t, ?_⟩
    have hsum := chained_sum_spans _ t (calculatePratyantarDashas_chained gp p t)
    have hEnd := pratyLoop_lastEnd gp p
      (((DASHA_YEARS gp * DASHA_YEARS p : ℤ) : ℚ) / 120)
      (jsIndexOf NAKSHATRA_LORDS p) 9 0 t
    rw [cycleYears_full _ hsi0 hsi9] at hEnd
    have h120 : ((DASHA_YEARS gp * DASHA_YEARS p : ℤ) : ℚ) / 120 *
        (((120 : ℤ) : ℚ)) / 120 =
        (DASHA_YEARS gp : ℚ) * (DASHA_YEARS p : ℚ) / 120 := by push_cast; ring
    rw [h120] at hEnd
    rw [hcalc] at hsum
    rw [hcalc]
    have hcast : ((((pratyLoop gp p
        (((DASHA_YEARS gp * DASHA_YEARS p : ℤ) : ℚ) / 120)
        (jsIndexOf NAKSHATRA_LORDS p) 9 0 t).map
          (fun x => x.endDate - x.startDate)).sum : ℤ) : ℚ) =
        ((lastEndD (pratyLoop gp p
          (((DASHA_YEARS gp * DASHA_YEARS p : ℤ) : ℚ) / 120)
          (jsIndexOf NAKSHATRA_LORDS p) 9 0 t) t : ℤ) : ℚ) - (t : ℚ) := by
      rw [hsum]; push_cast; ring
    rw [hcast]
    rw [abs_le] at hEnd ⊢
    have hgpQ : (6 : ℚ) ≤ (DASHA_YEARS gp : ℚ) := by exact_mod_cast hgp6
    have hpQ : (6 : ℚ) ≤ (DASHA_YEARS p : ℚ) := by exact_mod_cast hp6
    have h36 : (36 : ℚ) ≤ (DASHA_YEARS gp : ℚ) * (DASHA_YEARS p : ℚ) := by
      nlinarith
    rw [msPerYear_eq] at hEnd ⊢
    push_cast at hEnd ⊢
    constructor <;> nlinarith

/-- Witness for C1 at concrete inputs. -/
theorem c1_level_sums_witness :
    "Surya" ∈ NAKSHATRA_LORDS ∧
      (calculateAntarDashas "Surya" 0).length = 9 ∧
      (calculatePratyantarDashas "Surya" "Surya" 0).length = 9 ∧
      |((((calculateAntarDashas "Surya" 0).map
            (fun x => x.endDate - x.startDate)).sum : ℤ) : ℚ) -
          (DASHA_YEARS "Surya" : ℚ) * msPerYear| ≤
        1 / 1000000000 * ((DASHA_YEARS "Surya" : ℚ) * msPerYear) :=
  ⟨by decide,
   (c1_level_sums "Surya" "Surya" "Surya" 0 (by decide) (by decide) (by decide)).1.1,
   (c1_level_sums "Surya" "Surya" "Surya" 0 (by decide) (by decide) (by decide)).2.1,
   (c1_level_sums "Surya" "Surya" "Surya" 0 (by decide) (by decide) (by decide)).1.2⟩

/-! ## Mahadasha structure (claim C2) -/

theorem mahaLoop_getD (li : ℤ) :
    ∀ (fuel i j : ℕ) (cur : ℤ), j < fuel →
      ((mahaLoop li fuel i cur).getD j default).planet =
        lordAt ((li + ((i + j : ℕ) : ℤ)).tmod 9) ∧
      ((mahaLoop li fuel i cur).getD j default).durationYear =
        DASHA_YEARS (lordAt ((li + ((i + j : ℕ) : ℤ)).tmod 9)) ∧
      ((mahaLoop li fuel i cur).getD j default).durationMonth = 0 ∧
      ((mahaLoop li fuel i cur).getD j default).durationDay = 0 ∧
      ((mahaLoop li fuel i cur).getD j default).level = 1 := by
  intro fuel
  induction fuel with
  | zero => intro i j cur hj; omega
  | succ f ih =>
    intro i j cur hj
    cases j with
    | zero =>
      refine ⟨rfl, rfl, rfl, rfl, rfl⟩
    | succ k =>
      have hk : k < f := by omega
      have hrec := ih (i + 1) k (addTime cur
        ((DASHA_YEARS (lordAt ((li + (i : ℤ)).tmod 9)) : ℤ) : ℚ)) hk
      have harg : ((i + 1 + k : ℕ) : ℤ) = ((i + (k + 1) : ℕ) : ℤ) := by
        push_cast
        ring
      rw [harg] at hrec
      exact hrec

/-- Counterexample to claim C2 as stated: at Moon longitude `13.33333333332`
(inside `[0,360)`) the first emitted lord is `lordCycle[1] = "Shukra"`,
because the source divides by its truncated constant `13.3333333333`, while
the claim's formula `lordCycle[⌊L/(360/27)⌋ mod 9]` selects
`lordCycle[0] = "Ketu"`. -/
theorem c2_counterexample :
    ((calculateMahadashas (13.33333333332 : ℚ) 0).getD 0 default).planet =
      "Shukra" ∧
    (⌊(13.33333333332 : ℚ) / (360 / 27)⌋).tmod 9 = 0 ∧
    lordAt 0 = "Ketu" ∧ ("Shukra" : String) ≠ "Ketu" := by
  have hhead : ((calculateMahadashas (13.33333333332 : ℚ) 0).getD 0
      default).planet = lordAt ((⌊(13.33333333332 : ℚ) / nakshatraSpanD⌋).tmod 9) :=
    rfl
  have hfl : ⌊(13.33333333332 : ℚ) / nakshatraSpanD⌋ = 1 := by
    norm_num [nakshatraSpanD, Int.floor_eq_iff]
  have hfl2 : ⌊(13.33333333332 : ℚ) / (360 / 27)⌋ = 0 := by
    norm_num [Int.floor_eq_iff]
  refine ⟨?_, by rw [hfl2]; decide, by decide, by decide⟩
  rw [hhead, hfl]
  decide

/-- Claim C2 (amended): for every Moon longitude `L ∈ [0,360)` and birth
instant, `calculateMahadashas` emits exactly 9 periods in one linear pass of
the lord cycle starting at `lordCycle[⌊L/13.3333333333⌋ mod 9]` (the
source's truncated span constant, not `360/27` exactly): period 1 runs for
`DASHA_YEARS[firstLord] * (1 - frac(L/13.3333333333))` years from the birth
instant, and periods 2..9 carry `durationYear` equal to their lord's
`DASHA_YEARS` entry with `durationMonth = 0` and `durationDay = 0`. -/
theorem c2_mahadasha_structure (L : ℚ) (t : ℤ) (h0 : 0 ≤ L) (h1 : L < 360) :
    (calculateMahadashas L t).length = 9 ∧
    ((calculateMahadashas L t).getD 0 default).planet =
      lordAt ((⌊L / nakshatraSpanD⌋).tmod 9) ∧
    ((calculateMahadashas L t).getD 0 default).startDate = t ∧
    ((calculateMahadashas L t).getD 0 default).endDate =
      addTime t ((DASHA_YEARS (lordAt ((⌊L / nakshatraSpanD⌋).tmod 9)) : ℚ) *
        (1 - (L / nakshatraSpanD - (⌊L / nakshatraSpanD⌋ : ℚ)))) ∧
    ∀ j : ℕ, 1 ≤ j → j < 9 →
      ((calculateMahadashas L t).getD j default).planet =
        lordAt (((⌊L / nakshatraSpanD⌋).tmod 9 + (j : ℤ)).tmod 9) ∧
      ((calculateMahadashas L t).getD j default).durationYear =
        DASHA_YEARS (((calculateMahadashas L t).getD j default).planet) ∧
      ((calculateMahadashas L t).getD j default).durationMonth = 0 ∧
      ((calculateMahadashas L t).getD j default).durationDay = 0 := by
  refine ⟨by simp [calculateMahadashas, mahaLoop_length], rfl, rfl, rfl, ?_⟩
  intro j hj1 hj9
  obtain ⟨k, hk⟩ : ∃ k : ℕ, j = k + 1 := ⟨j - 1, by omega⟩
  subst hk
  have hk8 : k < 8 := by omega
  have hget : ∀ m : ℕ, ((calculateMahadashas L t).getD (m + 1) default) =
      ((mahaLoop ((⌊L / nakshatraSpanD⌋).tmod 9) 8 1
        (addTime t ((DASHA_YEARS (lordAt ((⌊L / nakshatraSpanD⌋).tmod 9)) : ℚ) *
          (1 - (L / nakshatraSpanD - (⌊L / nakshatraSpanD⌋ : ℚ)))))).getD m
        default) := by
    intro m
    rfl
  obtain ⟨hplanet, hyear, hmon, hday, _⟩ := mahaLoop_getD
    ((⌊L / nakshatraSpanD⌋).tmod 9) 8 1 k
    (addTime t ((DASHA_YEARS (lordAt ((⌊L / nakshatraSpanD⌋).tmod 9)) : ℚ) *
      (1 - (L / nakshatraSpanD - (⌊L / nakshatraSpanD⌋ : ℚ))))) hk8
  have harg : ((1 + k : ℕ) : ℤ) = ((k + 1 : ℕ) : ℤ) := by push_cast; ring
  rw [harg] at hplanet hyear
  refine ⟨?_, ?_, ?_, ?_⟩
  · rw [hget k, hplanet]
  · rw [hget k, hyear, hplanet]
  · rw [hget k, hmon]
  · rw [hget k, hday]

/-- Witness for C2 at concrete inputs. -/
theorem c2_mahadasha_structure_witness :
    (0 : ℚ) ≤ 54.5 ∧ (54.5 : ℚ) < 360 ∧
      (calculateMahadashas (54.5 : ℚ) 0).length = 9 ∧
      ((calculateMahadashas (54.5 : ℚ) 0).getD 1 default).durationMonth = 0 :=
  ⟨by norm_num, by norm_num,
   (c2_mahadasha_structure 54.5 0 (by norm_num) (by norm_num)).1,
   ((c2_mahadasha_structure 54.5 0 (by norm_num) (by norm_num)).2.2.2.2 1
      (by norm_num) (by norm_num)).2.2.1⟩

/-! ## Retrograde classification (claim C7) -/

/-- Counterexample to claim C7 as stated: when a body's tropical longitude
moves from 180 to 0 over the sampling hour the raw difference is exactly
-180; the claim's rule maps it into `(-180, 180]`, giving `+180`, hence
non-retrograde — but the source leaves `-180` unadjusted (`diff < -180` is
false) and marks the body retrograde. -/
theorem c7_counterexample :
    ((calculatePositions ephemerisCEx mathZero 0 0 0 0).getD 2
        default).isRetrograde = true ∧
    ephemerisCEx.eclipticLongitude "Mars" 0 -
        ephemerisCEx.eclipticLongitude "Mars" (0 - 3600000) = -180 ∧
    specWrapHalfOpen (-180) = 180 ∧ ¬ specWrapHalfOpen (-180) < 0 := by
  have hc : ⌈((-180 : ℚ) - 180) / 360⌉ = -1 := by
    rw [show ((-180 : ℚ) - 180) / 360 = ((-1 : ℤ) : ℚ) by norm_num]
    exact Int.ceil_intCast (-1)
  have hwrap : specWrapHalfOpen (-180) = 180 := by
    rw [specWrapHalfOpen, hc]
    norm_num
  have hflag : ((calculatePositions ephemerisCEx mathZero 0 0 0 0).getD 2
      default).isRetrograde =
      decide (retroAdjust (ephemerisCEx.eclipticLongitude "Mars" 0 -
        ephemerisCEx.eclipticLongitude "Mars" (0 - 3600000)) < 0) := rfl
  refine ⟨?_, by norm_num [ephemerisCEx], hwrap, by rw [hwrap]; norm_num⟩
  rw [hflag]
  norm_num [ephemerisCEx, retroAdjust]

/-- Claim C7 (amended): the Sun and Moon are never marked retrograde and
Rahu and Ketu always are, regardless of sampled positions; every other body
is marked retrograde iff the difference between its current tropical
longitude and its longitude one hour earlier, adjusted by +360 when below
-180 and by -360 when above 180 — so that it lands in the closed interval
`[-180, 180]`, an exact -180 being kept rather than wrapped to +180 — is
strictly negative. -/
theorem c7_retrograde (E : Ephemeris) (M : JsMath) (date : ℤ)
    (lat lon ay : ℚ) :
    ((calculatePositions E M date lat lon ay).getD 0 default).isRetrograde
        = false ∧
    ((calculatePositions E M date lat lon ay).getD 1 default).isRetrograde
        = false ∧
    ((calculatePositions E M date lat lon ay).getD 7 default).isRetrograde
        = true ∧
    ((calculatePositions E M date lat lon ay).getD 8 default).isRetrograde
        = true ∧
    ((calculatePositions E M date lat lon ay).getD 9 default).isRetrograde
        = false ∧
    ∀ i : ℕ, 2 ≤ i → i ≤ 6 →
      (((calculatePositions E M date lat lon ay).getD i default).isRetrograde
          = true ↔
        retroAdjust (E.eclipticLongitude (bodyNames.getD i "") date -
          E.eclipticLongitude (bodyNames.getD i "") (date - 3600000)) < 0) ∧
      (0 ≤ E.eclipticLongitude (bodyNames.getD i "") date →
        E.eclipticLongitude (bodyNames.getD i "") date < 360 →
        0 ≤ E.eclipticLongitude (bodyNames.getD i "") (date - 3600000) →
        E.eclipticLongitude (bodyNames.getD i "") (date - 3600000) < 360 →
        -180 ≤ retroAdjust (E.eclipticLongitude (bodyNames.getD i "") date -
          E.eclipticLongitude (bodyNames.getD i "") (date - 3600000)) ∧
        retroAdjust (E.eclipticLongitude (bodyNames.getD i "") date -
          E.eclipticLongitude (bodyNames.getD i "") (date - 3600000)) ≤ 180) := by
  have hrange : ∀ d : ℚ, -360 < d → d < 360 →
      -180 ≤ retroAdjust d ∧ retroAdjust d ≤ 180 := by
    intro d hd0 hd1
    unfold retroAdjust
    dsimp only
    split_ifs <;> constructor <;> linarith
  refine ⟨rfl, rfl, rfl, rfl, rfl, ?_⟩
  intro i h2 h6
  interval_cases i <;>
    exact ⟨decide_eq_true_iff, fun hc0 hc1 hp0 hp1 =>
      hrange _ (by linarith) (by linarith)⟩

/-- Witness for C7 at concrete inputs. -/
theorem c7_retrograde_witness :
    ((calculatePositions ephemerisCEx mathZero 0 0 0 0).getD 0
        default).isRetrograde = false ∧
    (0 : ℚ) ≤ ephemerisCEx.eclipticLongitude (bodyNames.getD 2 "") 0 ∧
    -180 ≤ retroAdjust (ephemerisCEx.eclipticLongitude (bodyNames.getD 2 "") 0 -
      ephemerisCEx.eclipticLongitude (bodyNames.getD 2 "") (0 - 3600000)) :=
  ⟨(c7_retrograde ephemerisCEx mathZero 0 0 0 0).1,
   by norm_num [ephemerisCEx, bodyNames],
   (((c7_retrograde ephemerisCEx mathZero 0 0 0 0).2.2.2.2.2 2 (by norm_num)
      (by norm_num)).2 (by norm_num [ephemerisCEx, bodyNames])
      (by norm_num [ephemerisCEx, bodyNames])
      (by norm_num [ephemerisCEx, bodyNames])
      (by norm_num [ephemerisCEx, bodyNames])).1⟩

/-! ## Correctness of the civil-calendar model (used by claims C9, C10).
`civilFromDays` is verified against `daysFromCivil` (validity + roundtrip),
`daysFromCivil` is shown strictly monotone in calendar order, and the 6/7
calendar-year day-count bounds give the year component of
`getDurationYMD` over a span of 2332-2333 days. -/

theorem rangeAll_spec (f : ℕ → Bool) :
    ∀ (fuel lo n : ℕ), rangeAll f fuel lo n = true →
      ∀ i, i < n → f (lo + i) = true := by
  intro fuel
  induction fuel with
  | zero =>
    intro lo n h i hi
    simp only [rangeAll, Bool.or_eq_true, Bool.and_eq_true, beq_iff_eq] at h
    rcases h with h0 | ⟨h1, h2⟩
    · omega
    · have hieq : i = 0 := by omega
      subst hieq
      simpa using h2
  | succ fl ih =>
    intro lo n h i hi
    by_cases hn : n ≤ 1
    · simp only [rangeAll, if_pos hn, Bool.or_eq_true, Bool.and_eq_true,
        beq_iff_eq] at h
      rcases h with h0 | ⟨h1, h2⟩
      · omega
      · have hieq : i = 0 := by omega
        subst hieq
        simpa using h2
    · simp only [rangeAll, if_neg hn, Bool.and_eq_true] at h
      obtain ⟨ha, hb⟩ := h
      by_cases hi2 : i < n / 2
      · exact ih lo (n / 2) ha i hi2
      · have hres := ih (lo + n / 2) (n - n / 2) hb (i - n / 2) (by omega)
        have heq : lo + n / 2 + (i - n / 2) = lo + i := by omega
        rw [heq] at hres
        exact hres

theorem checkYear_all : rangeAll checkYear 10 0 400 = true := by rfl

theorem checkYear_props (y : ℕ) (hy : y ≤ 399) :
    gN (sN y) / 365 = y ∧ gN (eN y - 1) / 365 = y ∧
      eN y - sN y = 365 + leapN (y + 1) ∧ sN y ≤ eN y := by
  have h := rangeAll_spec checkYear 10 0 400 checkYear_all y (by omega)
  simp only [Nat.zero_add, checkYear, Bool.and_eq_true, decide_eq_true_iff] at h
  exact ⟨h.1.1.1, h.1.1.2, h.1.2, h.2⟩

theorem gN_step (n : ℕ) : gN n ≤ gN (n + 1) := by
  unfold gN
  omega

theorem gN_mono {a b : ℕ} (h : a ≤ b) : gN a ≤ gN b := by
  obtain ⟨k, hk⟩ : ∃ k, b = a + k := ⟨b - a, by omega⟩
  subst hk
  clear h
  induction k with
  | zero => exact le_refl _
  | succ j ihj =>
    calc gN a ≤ gN (a + j) := ihj
    _ ≤ gN (a + j + 1) := gN_step (a + j)

theorem block_exists : ∀ n : ℕ, n < 146097 →
    ∃ y, y ≤ 399 ∧ sN y ≤ n ∧ n < eN y := by
  intro n
  induction n with
  | zero =>
    intro _
    refine ⟨0, by omega, by simp [sN], ?_⟩
    have h := (checkYear_props 0 (by omega)).2.2
    omega
  | succ m ihm =>
    intro hm
    obtain ⟨y, hy, hs, he⟩ := ihm (by omega)
    by_cases hcase : m + 1 < eN y
    · exact ⟨y, hy, by omega, hcase⟩
    · have hEm : m + 1 = eN y := by omega
      by_cases h399 : y = 399
      · exfalso
        rw [h399] at hEm
        simp [eN] at hEm
        omega
      · have hy1 : y + 1 ≤ 399 := by
          rcases Nat.lt_or_ge y 399 with h | h
          · omega
          · omega
        have hEy : eN y = sN (y + 1) := by simp [eN, h399]
        have hne := (checkYear_props (y + 1) hy1).2.2
        have hlen := (checkYear_props (y + 1) hy1).2.1
        refine ⟨y + 1, hy1, by omega, ?_⟩
        have : sN (y + 1) < eN (y + 1) := by
          have hleap : leapN (y + 1 + 1) = 0 ∨ leapN (y + 1 + 1) = 1 := by
            unfold leapN
            split <;> omega
          omega
        omega

theorem civil_coreN (n : ℕ) (h : n < 146097) :
    sN (gN n / 365) ≤ n ∧ n ≤ sN (gN n / 365) + 365 ∧ gN n / 365 ≤ 399 ∧
      (n = sN (gN n / 365) + 365 → leapN (gN n / 365 + 1) = 1) := by
  obtain ⟨y, hy, hs, he⟩ := block_exists n h
  obtain ⟨hg1, hg2, hlen, hse⟩ := checkYear_props y hy
  have hm1 : gN (sN y) ≤ gN n := gN_mono hs
  have hm2 : gN n ≤ gN (eN y - 1) := gN_mono (by omega)
  have hyeq : gN n / 365 = y := by omega
  rw [hyeq]
  have hleap : leapN (y + 1) = 0 ∨ leapN (y + 1) = 1 := by
    unfold leapN
    split <;> omega
  omega

theorem civil_core (doe yoe doy : ℤ) (h0 : 0 ≤ doe) (h1 : doe ≤ 146096)
    (hyoe : yoe = (doe - doe / 1460 + doe / 36524 - doe / 146096) / 365)
    (hdoy : doy = doe - (365 * yoe + yoe / 4 - yoe / 100)) :
    0 ≤ yoe ∧ yoe ≤ 399 ∧ 0 ≤ doy ∧ doy ≤ 365 ∧
    (doy = 365 → (yoe + 1) % 4 = 0 ∧ ((yoe + 1) % 100 ≠ 0 ∨ yoe + 1 = 400)) := by
  set n := doe.toNat with hnd
  have hn : ((n : ℕ) : ℤ) = doe := by omega
  have d1 : ((n / 1460 : ℕ) : ℤ) = doe / 1460 := by omega
  have d2 : ((n / 36524 : ℕ) : ℤ) = doe / 36524 := by omega
  have d3 : ((n / 146096 : ℕ) : ℤ) = doe / 146096 := by omega
  have hgval : (gN n : ℤ) = doe - doe / 1460 + doe / 36524 - doe / 146096 := by
    unfold gN
    omega
  have hY : ((gN n / 365 : ℕ) : ℤ) = yoe := by omega
  have e4 : ((gN n / 365 / 4 : ℕ) : ℤ) = yoe / 4 := by omega
  have e100 : ((gN n / 365 / 100 : ℕ) : ℤ) = yoe / 100 := by omega
  have hsval : (sN (gN n / 365) : ℤ) = 365 * yoe + yoe / 4 - yoe / 100 := by
    unfold sN
    omega
  have hcore := civil_coreN n (by omega)
  have hy0 : 0 ≤ yoe := by omega
  have hy399 : yoe ≤ 399 := by omega
  refine ⟨hy0, hy399, by omega, by omega, ?_⟩
  intro h365
  have hlp := hcore.2.2.2 (by omega)
  unfold leapN at hlp
  split at hlp
  · omega
  · omega

theorem doy_split (doy mp d : ℤ) (h0 : 0 ≤ doy) (h1 : doy ≤ 365)
    (hmp : mp = (5 * doy + 2) / 153)
    (hd : d = doy - (153 * mp + 2) / 5 + 1) :
    0 ≤ mp ∧ mp ≤ 11 ∧ 1 ≤ d ∧ d ≤ 31 ∧
    (153 * mp + 2) / 5 + d - 1 = doy ∧
    ((mp = 1 ∨ mp = 3 ∨ mp = 6 ∨ mp = 8) → d ≤ 30) ∧
    (mp = 11 → d = doy - 336) := by
  omega

theorem daysFromCivil_formula (y m d y2 era yoe mp : ℤ)
    (hy2 : y2 = y - (if m ≤ 2 then 1 else 0))
    (hera : era = y2 / 400) (hyoe : yoe = y2 - era * 400)
    (hmp : mp = m + (if 2 < m then -3 else 9)) :
    daysFromCivil y m d =
      era * 146097 +
        (yoe * 365 + yoe / 4 - yoe / 100 + ((153 * mp + 2) / 5 + d - 1)) -
        719468 := by
  subst hy2
  subst hera
  subst hyoe
  subst hmp
  rfl

theorem civilFromDays_spec (z : ℤ) :
    1 ≤ (civilFromDays z).2.1 ∧ (civilFromDays z).2.1 ≤ 12 ∧
    1 ≤ (civilFromDays z).2.2 ∧
    (civilFromDays z).2.2 ≤ daysInMonth (civilFromDays z).1 (civilFromDays z).2.1 ∧
    daysFromCivil (civilFromDays z).1 (civilFromDays z).2.1 (civilFromDays z).2.2
      = z := by
  have h0 : (0 : ℤ) ≤ (z + 719468) % 146097 := Int.emod_nonneg _ (by norm_num)
  have h1 : (z + 719468) % 146097 ≤ 146096 := by
    have := Int.emod_lt_of_pos (z + 719468) (by norm_num : (0:ℤ) < 146097)
    omega
  have hz2 : 146097 * ((z + 719468) / 146097) + (z + 719468) % 146097
      = z + 719468 := Int.ediv_add_emod _ _
  set E := (z + 719468) % 146097 with hE
  set ERA := (z + 719468) / 146097 with hERA
  set Y := (E - E / 1460 + E / 36524 - E / 146096) / 365 with hY
  set D := E - (365 * Y + Y / 4 - Y / 100) with hD
  set MP := (5 * D + 2) / 153 with hMP
  set DD := D - (153 * MP + 2) / 5 + 1 with hDD
  set M := MP + (if MP < 10 then 3 else -9) with hM
  have hcore := civil_core E Y D h0 h1 rfl rfl
  have hsplit := doy_split D MP DD hcore.2.2.1 hcore.2.2.2.1 rfl rfl
  have hcomp : civilFromDays z =
      (Y + ERA * 400 + (if M ≤ 2 then 1 else 0), M, DD) := rfl
  rw [hcomp]
  dsimp only
  by_cases hMP10 : MP < 10
  all_goals (
    first
      | rw [if_pos hMP10] at hM
      | rw [if_neg hMP10] at hM)
  -- case MP < 10: M = MP + 3, month 3..12, so not (M ≤ 2)
  · have hM2 : ¬ M ≤ 2 := by omega
    rw [if_neg hM2]
    have hform := daysFromCivil_formula (Y + ERA * 400 + 0) M DD
      (Y + ERA * 400) ERA Y MP
      (by rw [if_neg hM2]; ring)
      (by omega)
      (by ring)
      (by rw [if_pos (by omega : 2 < M)]; omega)
    rw [hform]
    refine ⟨by omega, by omega, by omega, ?_, by omega⟩
    -- day-in-month bound, non-February months
    unfold daysInMonth
    rw [if_neg (by omega : ¬ M = 2)]
    by_cases h30 : M = 4 ∨ M = 6 ∨ M = 9 ∨ M = 11
    · rw [if_pos h30]
      omega
    · rw [if_neg h30]
      omega
  -- case MP ≥ 10: M = MP - 9 ∈ {1, 2}
  · have hM2 : M ≤ 2 := by omega
    rw [if_pos hM2]
    have hform := daysFromCivil_formula (Y + ERA * 400 + 1) M DD
      (Y + ERA * 400) ERA Y MP
      (by rw [if_pos hM2]; ring)
      (by omega)
      (by ring)
      (by rw [if_neg (by omega : ¬ 2 < M)]; omega)
    rw [hform]
    refine ⟨by omega, by omega, by omega, ?_, by omega⟩
    unfold daysInMonth
    by_cases hFeb : M = 2
    · rw [if_pos hFeb]
      have hMP11 : MP = 11 := by omega
      have hDDval : DD = D - 336 := hsplit.2.2.2.2.2.2 hMP11
      by_cases hLeap : isLeap (Y + ERA * 400 + 1)
      · rw [if_pos hLeap]
        omega
      · rw [if_neg hLeap]
        unfold isLeap at hLeap
        push_neg at hLeap
        -- if D were 365, the year would be leap: contradiction gives D ≤ 364
        rcases Int.lt_or_le D 365 with hlt | hge
        · omega
        · exfalso
          have h365 : D = 365 := by omega
          obtain ⟨hm4, hm100⟩ := hcore.2.2.2.2 h365
          apply absurd (hLeap (by omega))
          push_neg
          rcases hm100 with hne | heq
          · omega
          · omega
    · rw [if_neg hFeb]
      rw [if_neg (by omega : ¬ (M = 4 ∨ M = 6 ∨ M = 9 ∨ M = 11))]
      omega

theorem era_decomp (y2 : ℤ) :
    y2 / 400 * 146097 +
      ((y2 - y2 / 400 * 400) * 365 + (y2 - y2 / 400 * 400) / 4 -
        (y2 - y2 / 400 * 400) / 100) =
      365 * y2 + y2 / 4 - y2 / 100 + y2 / 400 := by
  omega

theorem daysFromCivil_G (y m d : ℤ) :
    daysFromCivil y m d =
      fCivil (y - (if m ≤ 2 then 1 else 0)) +
        (153 * (m + (if 2 < m then -3 else 9)) + 2) / 5 + d - 1 - 719468 := by
  have hform := daysFromCivil_formula y m d (y - (if m ≤ 2 then 1 else 0))
    ((y - (if m ≤ 2 then 1 else 0)) / 400)
    ((y - (if m ≤ 2 then 1 else 0)) -
      (y - (if m ≤ 2 then 1 else 0)) / 400 * 400)
    (m + (if 2 < m then -3 else 9)) rfl rfl rfl rfl
  rw [hform, fCivil]
  have := era_decomp (y - (if m ≤ 2 then 1 else 0))
  omega

theorem fCivil_step (y : ℤ) :
    fCivil (y + 1) = fCivil y + 365 + (if isLeap (y + 1) then 1 else 0) := by
  unfold fCivil
  by_cases h : isLeap (y + 1)
  · rw [if_pos h]
    unfold isLeap at h
    omega
  · rw [if_neg h]
    unfold isLeap at h
    push_neg at h
    omega

theorem fCivil_mono {a b : ℤ} (h : a ≤ b) : fCivil a ≤ fCivil b := by
  unfold fCivil
  omega

theorem G_lt (Y1 P1 D1 Y2 P2 D2 : ℤ)
    (hP1a : 0 ≤ P1) (hP1b : P1 ≤ 11) (hD1 : 1 ≤ D1)
    (hDbound : (153 * P1 + 2) / 5 + D1 - 1 ≤
      364 + (if isLeap (Y1 + 1) then 1 else 0))
    (hDdim : P1 ≤ 10 → D1 ≤ (153 * (P1 + 1) + 2) / 5 - (153 * P1 + 2) / 5)
    (hP2a : 0 ≤ P2) (hP2b : P2 ≤ 11) (hD2 : 1 ≤ D2)
    (hlex : Y1 < Y2 ∨ (Y1 = Y2 ∧ (P1 < P2 ∨ (P1 = P2 ∧ D1 < D2)))) :
    fCivil Y1 + (153 * P1 + 2) / 5 + D1 - 1 <
      fCivil Y2 + (153 * P2 + 2) / 5 + D2 - 1 := by
  rcases hlex with hY | ⟨hYeq, hPD⟩
  · have hstep := fCivil_step Y1
    have hmono : fCivil (Y1 + 1) ≤ fCivil Y2 := fCivil_mono (by omega)
    by_cases hL : isLeap (Y1 + 1)
    · rw [if_pos hL] at hstep hDbound
      omega
    · rw [if_neg hL] at hstep hDbound
      omega
  · subst hYeq
    rcases hPD with hP | ⟨hPeq, hD⟩
    · have hdim := hDdim (by omega)
      omega
    · subst hPeq
      omega

theorem daysInMonth_le_31 (y m : ℤ) : daysInMonth y m ≤ 31 := by
  unfold daysInMonth
  split_ifs <;> omega

theorem dim_doyStart (y m : ℤ) (h1 : 1 ≤ m) (h2 : m ≤ 12) (hne : m ≠ 2) :
    daysInMonth y m ≤
      (153 * ((m + (if 2 < m then -3 else 9)) + 1) + 2) / 5 -
        (153 * (m + (if 2 < m then -3 else 9)) + 2) / 5 := by
  unfold daysInMonth
  rw [if_neg hne]
  interval_cases m <;> simp_all

theorem doyG_bound (y m d : ℤ) (h1 : 1 ≤ m) (h2 : m ≤ 12) (hd1 : 1 ≤ d)
    (hdb : d ≤ daysInMonth y m) :
    (153 * (m + (if 2 < m then -3 else 9)) + 2) / 5 + d - 1 ≤
      364 + (if isLeap (y - (if m ≤ 2 then 1 else 0) + 1) then 1 else 0) := by
  by_cases hm2 : m = 2
  · subst hm2
    rw [if_neg (by norm_num : ¬ (2:ℤ) < 2), if_pos (by norm_num : (2:ℤ) ≤ 2)]
    unfold daysInMonth at hdb
    rw [if_pos rfl] at hdb
    have hy : y - 1 + 1 = y := by ring
    rw [hy]
    by_cases hL : isLeap y
    · rw [if_pos hL]
      rw [if_pos hL] at hdb
      omega
    · rw [if_neg hL]
      rw [if_neg hL] at hdb
      omega
  · have h31 := daysInMonth_le_31 y m
    by_cases hm3 : m ≤ 2
    · -- m = 1
      have hm1 : m = 1 := by omega
      subst hm1
      rw [if_neg (by norm_num : ¬ (2:ℤ) < 1), if_pos (by norm_num : (1:ℤ) ≤ 2)]
      have : (0:ℤ) ≤ (if isLeap (y - 1 + 1) then (1:ℤ) else 0) := by
        split <;> omega
      omega
    · rw [if_pos (by omega : 2 < m), if_neg hm3]
      have : (0:ℤ) ≤ (if isLeap (y - 0 + 1) then (1:ℤ) else 0) := by
        split <;> omega
      omega

theorem dfc_lt_of_lt (y1 m1 d1 y2 m2 d2 : ℤ)
    (hm1a : 1 ≤ m1) (hm1b : m1 ≤ 12) (hd1a : 1 ≤ d1)
    (hd1b : d1 ≤ daysInMonth y1 m1)
    (hm2a : 1 ≤ m2) (hm2b : m2 ≤ 12) (hd2a : 1 ≤ d2) (hd2b : d2 ≤ 31)
    (hlex : y1 < y2 ∨ (y1 = y2 ∧ (m1 < m2 ∨ (m1 = m2 ∧ d1 < d2)))) :
    daysFromCivil y1 m1 d1 < daysFromCivil y2 m2 d2 := by
  rw [daysFromCivil_G, daysFromCivil_G]
  have hbound := doyG_bound y1 m1 d1 hm1a hm1b hd1a hd1b
  have h31 := daysInMonth_le_31 y1 m1
  have key := G_lt (y1 - (if m1 ≤ 2 then 1 else 0))
    (m1 + (if 2 < m1 then -3 else 9)) d1
    (y2 - (if m2 ≤ 2 then 1 else 0))
    (m2 + (if 2 < m2 then -3 else 9)) d2
    (by split <;> omega) (by split <;> omega) hd1a hbound
    (fun hP10 => by
      have hne2 : m1 ≠ 2 := by
        intro hc
        subst hc
        rw [if_neg (by norm_num : ¬ (2:ℤ) < 2)] at hP10
        omega
      have := dim_doyStart y1 m1 hm1a hm1b hne2
      omega)
    (by split <;> omega) (by split <;> omega) hd2a
    (by omega)
  omega

theorem dfc_shift6 (y m d : ℤ) :
    daysFromCivil (y + 6) m d - daysFromCivil y m d ≤ 2192 := by
  rw [daysFromCivil_G, daysFromCivil_G]
  unfold fCivil
  omega

theorem dfc_shift7 (y m d : ℤ) :
    2555 ≤ daysFromCivil (y + 7) m d - daysFromCivil y m d := by
  rw [daysFromCivil_G, daysFromCivil_G]
  unfold fCivil
  omega

theorem feb29_alias (y : ℤ) (h : ¬ isLeap y) :
    daysFromCivil y 2 29 = daysFromCivil y 3 1 := by
  rw [daysFromCivil_G, daysFromCivil_G]
  have hstep := fCivil_step (y - 1)
  rw [if_neg (by simpa using h)] at hstep
  norm_num at hstep ⊢
  omega

theorem daysInMonth_ne2_indep (y y2 m : ℤ) (h : m ≠ 2) :
    daysInMonth y m = daysInMonth y2 m := by
  unfold daysInMonth
  rw [if_neg h, if_neg h]

theorem daysInMonth_feb (y : ℤ) :
    daysInMonth y 2 = 28 + (if isLeap y then 1 else 0) := by
  unfold daysInMonth
  rw [if_pos rfl]

theorem daysInMonth_mar (y : ℤ) : daysInMonth y 3 = 31 := by
  unfold daysInMonth
  norm_num

theorem civil_year6 (n1 n2 y1 m1 d1 y2 m2 d2 : ℤ)
    (hc1 : civilFromDays n1 = (y1, m1, d1))
    (hc2 : civilFromDays n2 = (y2, m2, d2))
    (h : n2 - n1 = 2332 ∨ n2 - n1 = 2333) :
    (y2 - y1) -
      (if (m2 - m1) - (if d2 - d1 < 0 then 1 else 0) < 0 then 1 else 0) = 6 := by
  have hs1 := civilFromDays_spec n1
  rw [hc1] at hs1
  have hs2 := civilFromDays_spec n2
  rw [hc2] at hs2
  dsimp only at hs1 hs2
  obtain ⟨hm1a, hm1b, hd1a, hd1b, hr1⟩ := hs1
  obtain ⟨hm2a, hm2b, hd2a, hd2b, hr2⟩ := hs2
  have hd131 : d1 ≤ 31 := le_trans hd1b (daysInMonth_le_31 _ _)
  have hd231 : d2 ≤ 31 := le_trans hd2b (daysInMonth_le_31 _ _)
  have hA : ¬ (y2 < y1 + 6 ∨ (y2 = y1 + 6 ∧ (m2 < m1 ∨ (m2 = m1 ∧ d2 < d1)))) := by
    intro hlex
    have hmono := dfc_lt_of_lt y2 m2 d2 (y1 + 6) m1 d1 hm2a hm2b hd2a hd2b
      hm1a hm1b hd1a hd131 hlex
    have hΔ := dfc_shift6 y1 m1 d1
    omega
  have hB : y2 < y1 + 7 ∨ (y2 = y1 + 7 ∧ (m2 < m1 ∨ (m2 = m1 ∧ d2 < d1))) := by
    by_contra hn
    have hΔ7 := dfc_shift7 y1 m1 d1
    by_cases heq : y2 = y1 + 7 ∧ m2 = m1 ∧ d2 = d1
    · obtain ⟨hEy, hEm, hEd⟩ := heq
      rw [hEy, hEm, hEd] at hr2
      omega
    · have hstrict : y1 + 7 < y2 ∨
          (y1 + 7 = y2 ∧ (m1 < m2 ∨ (m1 = m2 ∧ d1 < d2))) := by
        omega
      by_cases hval : d1 ≤ daysInMonth (y1 + 7) m1
      · have hmono := dfc_lt_of_lt (y1 + 7) m1 d1 y2 m2 d2 hm1a hm1b hd1a hval
          hm2a hm2b hd2a hd231 hstrict
        omega
      · have hm1eq : m1 = 2 := by
          by_contra hne
          rw [daysInMonth_ne2_indep y1 (y1 + 7) m1 hne] at hd1b
          exact hval hd1b
      
        subst hm1eq
        rw [daysInMonth_feb] at hd1b hval
        have hnl : ¬ isLeap (y1 + 7) := by
          intro hL
          rw [if_pos hL] at hval
          have : (0:ℤ) ≤ (if isLeap y1 then (1:ℤ) else 0) := by split <;> omega
          omega
        rw [if_neg hnl] at hval
        have hd29 : d1 = 29 := by
          have : (if isLeap y1 then (1:ℤ) else 0) ≤ 1 := by split <;> omega
          omega
        subst hd29
        have halias := feb29_alias (y1 + 7) hnl
        by_cases heq31 : y2 = y1 + 7 ∧ m2 = 3 ∧ d2 = 1
        · obtain ⟨hEy, hEm, hEd⟩ := heq31
          rw [hEy, hEm, hEd] at hr2
          omega
        · have hdimfeb2 : y2 = y1 + 7 → m2 = 2 → d2 ≤ 28 := by
            intro hy hm
            rw [hy, hm, daysInMonth_feb, if_neg hnl] at hd2b
            omega
          have hstrict31 : y1 + 7 < y2 ∨
              (y1 + 7 = y2 ∧ (3 < m2 ∨ (3 = m2 ∧ 1 < d2))) := by
            rcases hstrict with hlt | ⟨hyeq, hmd⟩
            · exact Or.inl hlt
            · refine Or.inr ⟨hyeq, ?_⟩
              have hd2f := hdimfeb2 hyeq.symm
              omega
          have hmono := dfc_lt_of_lt (y1 + 7) 3 1 y2 m2 d2 (by norm_num)
            (by norm_num) (by norm_num) (by rw [daysInMonth_mar]; norm_num)
            hm2a hm2b hd2a hd231 hstrict31
          omega
  omega

/-! ## Mahadasha balance at Moon longitude 54.5 (claims C9, C10) -/

theorem getDurationYMD_year6 (s e : ℤ)
    (hD : e - s = 201570030897 ∨ e - s = 201570030898) :
    (getDurationYMD s e).1 = 6 := by
  have hday : jsDay e - jsDay s = 2332 ∨ jsDay e - jsDay s = 2333 := by
    unfold jsDay
    omega
  rcases hcv1 : civilFromDays (jsDay s) with ⟨y1, m1, d1⟩
  rcases hcv2 : civilFromDays (jsDay e) with ⟨y2, m2, d2⟩
  have h6 := civil_year6 (jsDay s) (jsDay e) y1 m1 d1 y2 m2 d2 hcv1 hcv2 hday
  unfold getDurationYMD getFullYear getMonth getDate
  rw [hcv1, hcv2]
  dsimp only
  omega

/-- The exact balance fraction computed by `calculateMahadashas` at Moon
longitude 54.5. -/
theorem balance_at_54_5 :
    (7 : ℚ) * (1 - ((54.5 : ℚ) / nakshatraSpanD -
      (⌊(54.5 : ℚ) / nakshatraSpanD⌋ : ℚ))) = 851666666655 / 133333333333 := by
  have hfl : ⌊(54.5 : ℚ) / nakshatraSpanD⌋ = 4 := by
    norm_num [nakshatraSpanD, Int.floor_eq_iff]
  rw [hfl]
  norm_num [nakshatraSpanD]

theorem balance_floor :
    ⌊(851666666655 / 133333333333 : ℚ) * msPerYear⌋ = 201570030897 := by
  rw [msPerYear_eq, Int.floor_eq_iff]
  constructor
  · norm_num
  · norm_num

theorem balance_ceil :
    ⌈(851666666655 / 133333333333 : ℚ) * msPerYear⌉ = 201570030898 := by
  rw [msPerYear_eq, Int.ceil_eq_iff]
  constructor
  · norm_num
  · norm_num

theorem addTime_balance (t : ℤ) :
    addTime t (851666666655 / 133333333333 : ℚ) = t + 201570030897 ∨
    addTime t (851666666655 / 133333333333 : ℚ) = t + 201570030898 := by
  unfold addTime jsTrunc
  split
  · right
    rw [add_comm ((t : ℤ) : ℚ) _, Int.ceil_add_int, balance_ceil]
    ring
  · left
    rw [add_comm ((t : ℤ) : ℚ) _, Int.floor_add_int, balance_floor]
    ring

/-- The balance expression `calculateMahadashas` computes at Moon longitude
54.5, as an explicit rational. -/
theorem balance_expr_54_5 :
    (DASHA_YEARS (lordAt ((⌊(54.5 : ℚ) / nakshatraSpanD⌋).tmod 9)) : ℚ) *
      (1 - ((54.5 : ℚ) / nakshatraSpanD - (⌊(54.5 : ℚ) / nakshatraSpanD⌋ : ℚ))) =
      851666666655 / 133333333333 := by
  have hfl : ⌊(54.5 : ℚ) / nakshatraSpanD⌋ = 4 := by
    norm_num [nakshatraSpanD, Int.floor_eq_iff]
  rw [hfl]
  rw [show lordAt ((4 : ℤ).tmod 9) = "Kuja" from rfl]
  rw [show ((DASHA_YEARS "Kuja" : ℤ) : ℚ) = 7 by norm_num [DASHA_YEARS]]
  norm_num [nakshatraSpanD]

theorem head_endDate_54_5 (t : ℤ) :
    ((calculateMahadashas (54.5 : ℚ) t).getD 0 default).endDate =
      addTime t (851666666655 / 133333333333 : ℚ) := by
  have hhead : ((calculateMahadashas (54.5 : ℚ) t).getD 0 default).endDate =
      addTime t ((DASHA_YEARS (lordAt ((⌊(54.5 : ℚ) / nakshatraSpanD⌋).tmod 9)) : ℚ) *
        (1 - ((54.5 : ℚ) / nakshatraSpanD - (⌊(54.5 : ℚ) / nakshatraSpanD⌋ : ℚ)))) :=
    rfl
  rw [hhead, balance_expr_54_5]

/-- Counterexample to claim C9 as stated: the code's balance at Moon
longitude 54.5 is `7 * (1 - frac(54.5/13.3333333333))`, which is about
7.2e-11 years short of the claim's `7 * 0.9125 = 6.3875`; over the mean
year in milliseconds the two end instants differ (201570030897 ms vs
201570030900 ms after the epoch, for a birth at the epoch). -/
theorem c9_counterexample :
    ((calculateMahadashas (54.5 : ℚ) 0).getD 0 default).endDate = 201570030897 ∧
    addTime 0 (6.3875 : ℚ) = 201570030900 ∧
    (201570030897 : ℤ) ≠ 201570030900 := by
  refine ⟨?_, ?_, by norm_num⟩
  · rw [head_endDate_54_5 0]
    unfold addTime jsTrunc
    rw [if_neg (by rw [msPerYear_eq]; norm_num :
      ¬ ((0 : ℤ) : ℚ) + (851666666655 / 133333333333 : ℚ) * msPerYear < 0)]
    rw [show ((0 : ℤ) : ℚ) + (851666666655 / 133333333333 : ℚ) * msPerYear =
      (851666666655 / 133333333333 : ℚ) * msPerYear by push_cast; ring]
    exact balance_floor
  · unfold addTime jsTrunc
    rw [if_neg (by rw [msPerYear_eq]; norm_num :
      ¬ ((0 : ℤ) : ℚ) + (6.3875 : ℚ) * msPerYear < 0)]
    rw [show ((0 : ℤ) : ℚ) + (6.3875 : ℚ) * msPerYear = ((201570030900 : ℤ) : ℚ) by
      rw [msPerYear_eq]; norm_num]
    rw [Int.floor_intCast]

/-- Claim C9 (amended): for Moon sidereal longitude 54.5° and every birth
instant, the first emitted Mahadasha period's lord is `"Kuja"`, with balance
`7 * (1 - frac(54.5/13.3333333333)) = 851666666655/133333333333` years
(≈ 6.3875 - 7.2e-11, not exactly `7 * 0.9125`); its `durationYear` component
is 6, and its month/day components equal the calendar Y/M/D subtraction
(`getDurationYMD`) of the span from the birth instant to the instant that
balance of mean Gregorian years later. -/
theorem c9_mahadasha_balance (t : ℤ) :
    ((calculateMahadashas (54.5 : ℚ) t).getD 0 default).planet = "Kuja" ∧
    ((calculateMahadashas (54.5 : ℚ) t).getD 0 default).startDate = t ∧
    (7 : ℚ) * (1 - ((54.5 : ℚ) / nakshatraSpanD -
      (⌊(54.5 : ℚ) / nakshatraSpanD⌋ : ℚ))) = 851666666655 / 133333333333 ∧
    ((calculateMahadashas (54.5 : ℚ) t).getD 0 default).endDate =
      addTime t (851666666655 / 133333333333 : ℚ) ∧
    ((calculateMahadashas (54.5 : ℚ) t).getD 0 default).durationYear = 6 ∧
    ((calculateMahadashas (54.5 : ℚ) t).getD 0 default).durationMonth =
      (getDurationYMD t (addTime t (851666666655 / 133333333333 : ℚ))).2.1 ∧
    ((calculateMahadashas (54.5 : ℚ) t).getD 0 default).durationDay =
      (getDurationYMD t (addTime t (851666666655 / 133333333333 : ℚ))).2.2 := by
  have hfl : ⌊(54.5 : ℚ) / nakshatraSpanD⌋ = 4 := by
    norm_num [nakshatraSpanD, Int.floor_eq_iff]
  have hplanet : ((calculateMahadashas (54.5 : ℚ) t).getD 0 default).planet =
      lordAt ((⌊(54.5 : ℚ) / nakshatraSpanD⌋).tmod 9) := rfl
  have hyear : ((calculateMahadashas (54.5 : ℚ) t).getD 0 default).durationYear =
      (getDurationYMD t
        (addTime t ((DASHA_YEARS (lordAt ((⌊(54.5 : ℚ) / nakshatraSpanD⌋).tmod 9)) : ℚ) *
          (1 - ((54.5 : ℚ) / nakshatraSpanD -
            (⌊(54.5 : ℚ) / nakshatraSpanD⌋ : ℚ)))))).1 := rfl
  have hmonth : ((calculateMahadashas (54.5 : ℚ) t).getD 0 default).durationMonth =
      (getDurationYMD t
        (addTime t ((DASHA_YEARS (lordAt ((⌊(54.5 : ℚ) / nakshatraSpanD⌋).tmod 9)) : ℚ) *
          (1 - ((54.5 : ℚ) / nakshatraSpanD -
            (⌊(54.5 : ℚ) / nakshatraSpanD⌋ : ℚ)))))).2.1 := rfl
  have hday : ((calculateMahadashas (54.5 : ℚ) t).getD 0 default).durationDay =
      (getDurationYMD t
        (addTime t ((DASHA_YEARS (lordAt ((⌊(54.5 : ℚ) / nakshatraSpanD⌋).tmod 9)) : ℚ) *
          (1 - ((54.5 : ℚ) / nakshatraSpanD -
            (⌊(54.5 : ℚ) / nakshatraSpanD⌋ : ℚ)))))).2.2 := rfl
  have hY6 : (getDurationYMD t (addTime t (851666666655 / 133333333333 : ℚ))).1
      = 6 := by
    apply getDurationYMD_year6
    rcases addTime_balance t with h | h
    · left; omega
    · right; omega
  have hbal54 : (7 : ℚ) * (1 - ((54.5 : ℚ) / nakshatraSpanD -
      (⌊(54.5 : ℚ) / nakshatraSpanD⌋ : ℚ))) = 851666666655 / 133333333333 := by
    have := balance_expr_54_5
    rw [hfl] at this ⊢
    rw [show lordAt ((4 : ℤ).tmod 9) = "Kuja" from rfl] at this
    rw [show ((DASHA_YEARS "Kuja" : ℤ) : ℚ) = 7 by norm_num [DASHA_YEARS]] at this
    exact this
  refine ⟨?_, rfl, hbal54, head_endDate_54_5 t, ?_, ?_, ?_⟩
  · rw [hplanet, hfl]
    rfl
  · rw [hyear, balance_expr_54_5]
    exact hY6
  · rw [hmonth, balance_expr_54_5]
  · rw [hday, balance_expr_54_5]

/-- Claim C10: the Y/M/D subtraction can return a negative day component,
and it reaches the public interface: the first antardasha of Shukra for a
start instant of 2001-10-31T00:00:00Z ends 2005-03-01T11:24:00Z (March
follows the 28-day February 2005), and its `durationDay` is `-2`. -/
theorem c10_negative_duration_day :
    getFullYear 1004486400000 = 2001 ∧ getMonth 1004486400000 = 9 ∧
    getDate 1004486400000 = 31 ∧
    ((calculateAntarDashas "Shukra" 1004486400000).getD 0 default).endDate =
      1109676240000 ∧
    getFullYear 1109676240000 = 2005 ∧ getMonth 1109676240000 = 2 ∧
    getDate 1109676240000 = 1 ∧
    getDurationYMD 1004486400000 1109676240000 = (3, 4, -2) ∧
    ((calculateAntarDashas "Shukra" 1004486400000).getD 0 default).durationDay
      = -2 ∧
    ((calculateAntarDashas "Shukra" 1004486400000).getD 0 default).durationDay
      < 0 := by
  have hload : ((calculateAntarDashas "Shukra" 1004486400000).getD 0
      default).endDate =
      addTime 1004486400000
        (((DASHA_YEARS "Shukra" *
          DASHA_YEARS (lordAt ((jsIndexOf NAKSHATRA_LORDS "Shukra" +
            ((0 : ℕ) : ℤ)).tmod 9)) : ℤ) : ℚ) / 120) := rfl
  have harg : ((DASHA_YEARS "Shukra" *
      DASHA_YEARS (lordAt ((jsIndexOf NAKSHATRA_LORDS "Shukra" +
        ((0 : ℕ) : ℤ)).tmod 9)) : ℤ) : ℚ) / 120 = 400 / 120 := by
    rw [show lordAt ((jsIndexOf NAKSHATRA_LORDS "Shukra" + ((0 : ℕ) : ℤ)).tmod 9)
      = "Shukra" from rfl]
    norm_num [DASHA_YEARS]
  have hend : addTime 1004486400000 ((400 : ℚ) / 120) = 1109676240000 := by
    unfold addTime jsTrunc
    rw [if_neg (by rw [msPerYear_eq]; norm_num :
      ¬ ((1004486400000 : ℤ) : ℚ) + (400 / 120 : ℚ) * msPerYear < 0)]
    rw [show ((1004486400000 : ℤ) : ℚ) + (400 / 120 : ℚ) * msPerYear =
      ((1109676240000 : ℤ) : ℚ) by rw [msPerYear_eq]; norm_num]
    rw [Int.floor_intCast]
  have hdur : getDurationYMD 1004486400000 1109676240000 = (3, 4, -2) := by
    decide
  have hdday : ((calculateAntarDashas "Shukra" 1004486400000).getD 0
      default).durationDay =
      (getDurationYMD 1004486400000
        (addTime 1004486400000
          (((DASHA_YEARS "Shukra" *
            DASHA_YEARS (lordAt ((jsIndexOf NAKSHATRA_LORDS "Shukra" +
              ((0 : ℕ) : ℤ)).tmod 9)) : ℤ) : ℚ) / 120))).2.2 := rfl
  have hddayval : ((calculateAntarDashas "Shukra" 1004486400000).getD 0
      default).durationDay = -2 := by
    rw [hdday, harg, hend, hdur]
  refine ⟨by decide, by decide, by decide, ?_, by decide, by decide, by decide,
    hdur, hddayval, by rw [hddayval]; norm_num⟩
  rw [hload, harg, hend]

end AstrologyService